import Mathlib

/-!
Shallow embedding of the pyunc UNC-format decoder (src/pyunc/__init__.py).

Conventions of the embedding:
* A file is a `List Nat` of byte values (each < 256 for real files).
* Python exceptions become the `Err` inductive; since the source raises only
  built-in exceptions (struct.error, UnicodeDecodeError, OSError, IndexError,
  ZeroDivisionError, KeyError, numpy ValueError), the constructors follow the
  spec's error taxonomy with extra constructors for the remaining built-ins:
  - short fixed-width reads (struct.error) and a pixel stream holding fewer
    samples than required (numpy reshape ValueError) -> `truncatedInputError`;
  - non-ASCII text (UnicodeDecodeError) and a negative section address
    (OSError from seek) -> `decodeError`;
  - fewer info records than 1 + dim_vector[0] (IndexError on self.info[i])
    -> `inconsistentMetadataError`;
  - dim_count > 10 (IndexError on the 10-entry dimv tuple) -> `indexError`;
  - pixel-array rank other than 3 in the split operations (IndexError on
    shape[1]/shape[2], or numpy broadcast ValueError) -> `shapeError`;
  - `int(shape[0] / 0)` -> `zeroDivisionError`;
  - `s.dicom_header['Echo Number']` on a record lacking the field -> `keyError`;
  - an Info address more than one byte past end of file makes the computed
    info length less than -1, so `f.read` of the BufferedReader raises
    ValueError before any decoding or splitting -> `valueError`.
* numpy arrays are a dtype tag, a shape, and the flat row-major element list;
  every reachable element fits in int16, so float64 copies are value-exact and
  elements are carried as `Int`.
* The external header collaborators (`UNCHeader`, `SliceHeader` from
  pyunc/header.py) are, per the spec, opaque: the decoder is parametrized by
  the two parse functions; a slice record exposes only the orderable
  `slice_location` and the optional "Echo Number" entry that the core reads.
-/

namespace Pyunc

/-- Signed big-endian 32-bit integer from a 4-byte list
(one field of a struct.unpack with format code i). -/
def int32OfBytes : List Nat → Int
  | [b0, b1, b2, b3] =>
    let u : Nat := b0 * 16777216 + b1 * 65536 + b2 * 256 + b3
    if u < 2147483648 then (u : Int) else (u : Int) - 4294967296
  | _ => 0

/-- Consecutive signed big-endian 32-bit integers (struct.unpack of several i). -/
def int32List : List Nat → List Int
  | b0 :: b1 :: b2 :: b3 :: rest => int32OfBytes [b0, b1, b2, b3] :: int32List rest
  | _ => []

/-- Signed big-endian 16-bit integer from two bytes (one sample of numpy dtype >i2). -/
def int16OfBytes (b0 b1 : Nat) : Int :=
  let u : Nat := b0 * 256 + b1
  if u < 32768 then (u : Int) else (u : Int) - 65536

/-- Consecutive signed big-endian 16-bit samples; a trailing odd byte is dropped,
as numpy reads only complete items. -/
def int16List : List Nat → List Int
  | b0 :: b1 :: rest => int16OfBytes b0 b1 :: int16List rest
  | _ => []

/-- Error taxonomy of the decode and partition pipeline; see the header comment
for the mapping from the Python built-in exceptions of the source. -/
inductive Err where
  | truncatedInputError
  | decodeError
  | inconsistentMetadataError
  | indexError
  | shapeError
  | zeroDivisionError
  | keyError
  | valueError
  deriving DecidableEq

/-- Model of seek-then-read of exactly n bytes: a negative seek offset raises
(OSError), a short read makes the subsequent struct.unpack fail. -/
def readAt (file : List Nat) (off : Int) (n : Nat) : Except Err (List Nat) :=
  if off < 0 then .error .decodeError
  else if off.toNat + n ≤ file.length then .ok ((file.drop off.toNat).take n)
  else .error .truncatedInputError

/-- Bytes decode as ASCII exactly when all are below 128. -/
def asciiOk (bs : List Nat) : Bool := bs.all (fun b => decide (b < 128))

/-- View bytes as characters (used only after an `asciiOk` check). -/
def asChars (bs : List Nat) : List Char := bs.map Char.ofNat

def nullChar : Char := Char.ofNat 0

/-- Element dtype of a numpy array in this pipeline. -/
inductive DType where
  | int16be
  | float64
  deriving DecidableEq

/-- A numpy array: dtype, shape, and the flat element list in row-major order. -/
structure NDArray where
  dtype : DType
  shape : List Nat
  data : List Int
  deriving DecidableEq

/-- The part of a parsed per-slice metadata record that the core reads:
an orderable slice location and the optional "Echo Number" entry of the
dicom_header mapping. -/
structure SliceRec where
  slice_location : Int
  echoNumber : Option Int
  deriving DecidableEq

/-- Fields of a UNCFile populated by the fixed-offset section readers
(everything up to and including _calculate_pixel_count). -/
structure Fixed where
  addresses : List Int
  title : List Char
  valid_maxmin : Bool
  min : Int
  max : Int
  valid_histogram : Bool
  histogram : List Int
  pixel_format : Int
  dimc : Int
  dimv : List Int
  pixel_count : Int
  deriving DecidableEq

/-- State after _read_info: the fixed fields plus the parsed global header and
the sorted per-slice records. -/
structure MetaState (H : Type) extends Fixed where
  header : H
  slice_info : List SliceRec
  deriving DecidableEq

/-- A fully decoded UNC file (the result of UNCFile.from_file). -/
structure UNCFile (H : Type) extends MetaState H where
  pixels : NDArray
  deriving DecidableEq

/-- A result object of split_echoes or split_volumes: the source builds a bare
UNCFile and assigns exactly these five attributes. -/
structure SplitVolume (H : Type) where
  header : H
  dimc : Int
  dimv : List Int
  slice_info : List SliceRec
  pixels : NDArray
  deriving DecidableEq

/-- Model of _read_addresses: 9 big-endian int32 section offsets at offset 0. -/
def readAddresses (file : List Nat) : Except Err (List Int) := do
  let ab ← readAt file 0 36
  pure (int32List ab)

/-- Model of _read_title: 81 bytes at the Title address, decoded as ASCII,
truncated at the first null (str.split of the null char, first part). -/
def readTitleSec (file : List Nat) (addrs : List Int) : Except Err (List Char) := do
  let tb ← readAt file (addrs.getD 2 0) 81
  if asciiOk tb then pure ((asChars tb).takeWhile (fun c => c != nullChar))
  else .error .decodeError

/-- Model of _read_maxmin: validity flag then min and max, at the MaxMin address. -/
def readMaxMin (file : List Nat) (addrs : List Int) : Except Err (Bool × Int × Int) := do
  let fb ← readAt file (addrs.getD 0 0) 4
  let mb ← readAt file (addrs.getD 0 0 + 4) 8
  pure (int32OfBytes fb == 1, (int32List mb).getD 0 0, (int32List mb).getD 1 0)

/-- Model of _read_histogram: validity flag then 1024 int32 bins. -/
def readHistogram (file : List Nat) (addrs : List Int) : Except Err (Bool × List Int) := do
  let fb ← readAt file (addrs.getD 1 0) 4
  let hb ← readAt file (addrs.getD 1 0 + 4) 4096
  pure (int32OfBytes fb == 1, int32List hb)

/-- Model of _read_pixel_format. -/
def readPixelFormat (file : List Nat) (addrs : List Int) : Except Err Int := do
  let pb ← readAt file (addrs.getD 3 0) 4
  pure (int32OfBytes pb)

/-- Model of _read_dimc. -/
def readDimc (file : List Nat) (addrs : List Int) : Except Err Int := do
  let db ← readAt file (addrs.getD 4 0) 4
  pure (int32OfBytes db)

/-- Model of _read_dimv: 10 int32 dimension extents. -/
def readDimv (file : List Nat) (addrs : List Int) : Except Err (List Int) := do
  let vb ← readAt file (addrs.getD 5 0) 40
  pure (int32List vb)

/-- Model of _calculate_pixel_count: the loop over range(dimc) multiplies the
first dimc entries of dimv (an empty or negative range yields 1); an index
beyond the 10-entry tuple raises IndexError. -/
def calcPixelCount (dimc : Int) (dimv : List Int) : Except Err Int :=
  if dimc ≤ 10 then .ok ((dimv.take dimc.toNat).prod)
  else .error .indexError

/-- The fixed-offset part of UNCFile.from_file, in source order. -/
def decodeFixed (file : List Nat) : Except Err Fixed := do
  let addrs ← readAddresses file
  let title ← readTitleSec file addrs
  let mm ← readMaxMin file addrs
  let hg ← readHistogram file addrs
  let pf ← readPixelFormat file addrs
  let dc ← readDimc file addrs
  let dv ← readDimv file addrs
  let pc ← calcPixelCount dc dv
  pure { addresses := addrs, title := title, valid_maxmin := mm.1, min := mm.2.1,
         max := mm.2.2, valid_histogram := hg.1, histogram := hg.2, pixel_format := pf,
         dimc := dc, dimv := dv, pixel_count := pc }

/-- Split a character list at null separators, str.split style: n separators
produce n+1 (possibly empty) parts. -/
def splitOnNull (l : List Char) : List (List Char) :=
  l.foldr (fun c acc =>
    if c = nullChar then [] :: acc
    else match acc with
      | [] => [[c]]
      | g :: gs => (c :: g) :: gs) [[]]

/-- The info records: the bytes from the Info address to end of file, viewed as
text, split at nulls, empty strings discarded. -/
def infoRecords (file : List Nat) (addrI : Int) : List (List Char) :=
  (splitOnNull (asChars (file.drop addrI.toNat))).filter (fun g => !g.isEmpty)

/-- Model of list.sort(key=slice_location): a stable sort, non-decreasing in
the slice location. Python's sort is stable and a stable non-decreasing sort
has a unique result, so any stable sort models it; insertion sort is used
because it is structurally recursive. -/
def sortSlices (l : List SliceRec) : List SliceRec :=
  List.insertionSort (fun a b => a.slice_location ≤ b.slice_location) l

/-- Model of _read_info: the source computes info_len = cnt - Info address
(cnt the file byte count) and calls f.read(info_len) after seeking there.
When the address exceeds cnt + 1 the read length is below -1 and the
BufferedReader raises ValueError; otherwise the read returns exactly the
bytes from the address to end of file (read(-1) at the address cnt + 1
returns the empty string, as does a nonnegative-length read at or past
end of file). The text is decoded as ASCII, split into records, record 0
parsed as the global header and the dim_vector[0] following records as
slices, then sorted by slice location. Accessing a record index beyond the
list is the IndexError mapped to `inconsistentMetadataError` by the spec
taxonomy. -/
def readInfoStage {H : Type} (hp : List Char → H) (sp : List Char → SliceRec)
    (file : List Nat) (fx : Fixed) : Except Err (MetaState H) :=
  if fx.addresses.getD 7 0 < 0 then .error .decodeError
  else if (file.length : Int) + 1 < fx.addresses.getD 7 0 then .error .valueError
  else if asciiOk (file.drop (fx.addresses.getD 7 0).toNat) then
    if (infoRecords file (fx.addresses.getD 7 0)).length < (fx.dimv.getD 0 0).toNat + 1 then
      .error .inconsistentMetadataError
    else .ok { toFixed := fx,
               header := hp ((infoRecords file (fx.addresses.getD 7 0)).getD 0 []),
               slice_info := sortSlices ((((infoRecords file (fx.addresses.getD 7 0)).drop 1).take
                 (fx.dimv.getD 0 0).toNat).map sp) }
  else .error .decodeError

/-- Python slice dimv[0:j] on the 10-entry dimension tuple: a negative upper
bound counts from the end. -/
def pySlice (l : List Int) (j : Int) : List Int :=
  if j < 0 then l.take ((l.length : Int) + j).toNat else l.take j.toNat

/-- Model of numpy reshape of a flat array to a possibly-signed shape, returning
the resolved nonnegative shape: with all extents nonnegative the element counts
must agree exactly; a single -1 extent is inferred when the product of the
others is positive and divides the length; anything else is a ValueError. -/
def reshape (flat : List Int) (shape : List Int) : Option (List Nat) :=
  if shape.all (fun d => decide (0 ≤ d)) then
    if (shape.map Int.toNat).prod = flat.length then some (shape.map Int.toNat) else none
  else if shape.count (-1) = 1 ∧ shape.all (fun d => decide (0 ≤ d ∨ d = -1)) then
    let p := ((shape.filter (fun d => decide (0 ≤ d))).map Int.toNat).prod
    if 0 < p ∧ p ∣ flat.length then
      some (shape.map (fun d => if d = -1 then flat.length / p else d.toNat))
    else none
  else none

/-- Model of np.fromfile at a byte offset with dtype >i2 and the given count:
a negative count reads every complete sample to end of file, a nonnegative
count reads at most count samples, fewer at end of file. -/
def fromfileSamples (file : List Nat) (aP : Int) (count : Int) : List Int :=
  if count < 0 then int16List (file.drop aP.toNat)
  else (int16List (file.drop aP.toNat)).take count.toNat

/-- Model of _read_pixels: seek to the Pixels address, numpy fromfile of
pixel_count big-endian int16 samples, then reshape to dimv[0:dimc]. A failing
reshape is the ValueError mapped to `truncatedInputError` by the spec
taxonomy. -/
def readPixels {H : Type} (file : List Nat) (m : MetaState H) : Except Err (UNCFile H) :=
  if m.addresses.getD 6 0 < 0 then .error .decodeError
  else
    match reshape (fromfileSamples file (m.addresses.getD 6 0) m.pixel_count)
        (pySlice m.dimv m.dimc) with
    | none => .error .truncatedInputError
    | some sh =>
        .ok { toMetaState := m,
              pixels := { dtype := .int16be, shape := sh,
                          data := fromfileSamples file (m.addresses.getD 6 0) m.pixel_count } }

/-- Everything of UNCFile.from_file up to and including _read_info. -/
def decodeMeta {H : Type} (hp : List Char → H) (sp : List Char → SliceRec)
    (file : List Nat) : Except Err (MetaState H) := do
  let fx ← decodeFixed file
  readInfoStage hp sp file fx

/-- Model of UNCFile.from_file: the full decode pipeline in source order
(_read_pixels runs last). -/
def decode {H : Type} (hp : List Char → H) (sp : List Char → SliceRec)
    (file : List Nat) : Except Err (UNCFile H) := do
  let m ← decodeMeta hp sp file
  readPixels file m

/-- Model of the num_echoes property: the number of distinct values of the
"Echo Number" field, a missing field contributing 0. -/
def numEchoes (l : List SliceRec) : Nat :=
  ((l.map (fun s => s.echoNumber.getD 0)).dedup).length

def UNCFile.num_echoes {H : Type} (v : UNCFile H) : Nat := numEchoes v.slice_info

/-- Python l[0::k]: every k-th element starting at index 0. -/
def strided {α : Type} (l : List α) (k : Nat) : List α :=
  (l.enum.filter (fun p => p.1 % k == 0)).map (fun p => p.2)

/-- Model of split_echoes: requires a rank-3 pixel array (shape[1] and shape[2]
are indexed, and copying uses 3-axis slices); integer-truncating division of
the slice count by num_echoes; echo n takes the contiguous slice range
starting at n * slices_per_echo and the records whose Echo Number equals
n + 1 (a record lacking the field raises KeyError). The copies land in a
fresh default-dtype (float64) array. -/
def splitEchoes {H : Type} (u : UNCFile H) : Except Err (List (SplitVolume H)) :=
  if u.pixels.shape.length = 0 then .error .shapeError
  else if u.num_echoes = 0 then .error .zeroDivisionError
  else if u.pixels.shape.length ≠ 3 then .error .shapeError
  else if u.slice_info.any (fun s => s.echoNumber.isNone) then .error .keyError
  else
    .ok ((List.range u.num_echoes).map (fun (n : Nat) =>
      { header := u.header, dimc := u.dimc, dimv := u.dimv,
        slice_info := u.slice_info.filter
          (fun s => s.echoNumber == some ((n : Int) + 1)),
        pixels := { dtype := .float64,
                    shape := [u.pixels.shape.getD 0 0 / u.num_echoes,
                              u.pixels.shape.getD 1 0, u.pixels.shape.getD 2 0],
                    data := (u.pixels.data.drop
                        (n * (u.pixels.shape.getD 0 0 / u.num_echoes
                          * u.pixels.shape.getD 1 0 * u.pixels.shape.getD 2 0))).take
                      (u.pixels.shape.getD 0 0 / u.num_echoes
                        * u.pixels.shape.getD 1 0 * u.pixels.shape.getD 2 0) } }))

/-- Model of split_volumes: same rank-3 requirement and contiguous pixel
partition as split_echoes, but the metadata of every result is the strided
selection slice_info[0::n_vols]. -/
def splitVolumes {H : Type} (u : UNCFile H) (nVols : Nat) :
    Except Err (List (SplitVolume H)) :=
  if u.pixels.shape.length = 0 then .error .shapeError
  else if nVols = 0 then .error .zeroDivisionError
  else if u.pixels.shape.length ≠ 3 then .error .shapeError
  else
    .ok ((List.range nVols).map (fun (n : Nat) =>
      { header := u.header, dimc := u.dimc, dimv := u.dimv,
        slice_info := strided u.slice_info nVols,
        pixels := { dtype := .float64,
                    shape := [u.pixels.shape.getD 0 0 / nVols,
                              u.pixels.shape.getD 1 0, u.pixels.shape.getD 2 0],
                    data := (u.pixels.data.drop
                        (n * (u.pixels.shape.getD 0 0 / nVols
                          * u.pixels.shape.getD 1 0 * u.pixels.shape.getD 2 0))).take
                      (u.pixels.shape.getD 0 0 / nVols
                        * u.pixels.shape.getD 1 0 * u.pixels.shape.getD 2 0) } }))

/-- Byte layout shared by the concrete files: address table, max/min flag,
max/min values, histogram flag, histogram bins, title, pixel format,
dim count, dim vector, info text, pixel bytes. -/
def layout (c0 c1 c2 c3 c4 c5 c6 c7 c8 cI cP : List Nat) : List Nat :=
  c0 ++ (c1 ++ (c2 ++ (c3 ++ (c4 ++ (c5 ++ (c6 ++ (c7 ++ (c8 ++ (cI ++ cP)))))))))

/-! Concrete collaborator parsers and concrete inputs used by the witnesses
and counterexamples below. -/

/-- A trivial global-header collaborator. -/
def hpUnit : List Char → Unit := fun _ => ()

/-- A slice collaborator whose slice location is the first character code of
the record text and which exposes no Echo Number entry. -/
def spChar : List Char → SliceRec :=
  fun cs => { slice_location := ((cs.headD nullChar).toNat : Int), echoNumber := none }

/-- Address-table chunk of the well-formed file family: standard arrangement,
pixels at 4284, info at 4277. -/
def bAddr : List Nat :=
  [0,0,0,36, 0,0,0,48, 0,0,16,52, 0,0,16,133, 0,0,16,137, 0,0,16,141,
   0,0,16,188, 0,0,16,181, 0,0,0,0]

def bMMF : List Nat := [0,0,0,1]

def bMMV : List Nat := [0,0,0,2, 0,0,0,9]

def bHF : List Nat := [0,0,0,0]

def bHB : List Nat := List.replicate 4096 0

def bTitle : List Nat := [66,82,65,73,78] ++ List.replicate 76 0

def bPF : List Nat := [0,0,0,2]

def bDC : List Nat := [0,0,0,3]

def bDV : List Nat := [0,0,0,2, 0,0,0,2, 0,0,0,2] ++ List.replicate 28 0

def bInfo : List Nat := [72,68,82,0,66,0,65]

def bPix : List Nat := [0,1,0,2,0,3,0,4,0,5,0,6,0,7,0,8]

/-- A well-formed 4300-byte file: title BRAIN, dim_count 3, dim_vector
(2,2,2), one header record and two slice records with out-of-order
locations, 8 pixel samples. -/
def brainFile : List Nat := layout bAddr bMMF bMMV bHF bHB bTitle bPF bDC bDV bInfo bPix

/-- brainFile with the pixel stream cut to a single sample. -/
def truncFile : List Nat := layout bAddr bMMF bMMV bHF bHB bTitle bPF bDC bDV bInfo [0, 1]

/-- brainFile with the info text cut to two records and no pixel bytes. -/
def fewRecFile : List Nat :=
  layout bAddr bMMF bMMV bHF bHB bTitle bPF bDC bDV [72,68,82,0,66,0] []

def brainFixed : Fixed :=
  { addresses := [36, 48, 4148, 4229, 4233, 4237, 4284, 4277, 0],
    title := ['B','R','A','I','N'],
    valid_maxmin := true, min := 2, max := 9,
    valid_histogram := false, histogram := List.replicate 1024 0,
    pixel_format := 2, dimc := 3, dimv := [2,2,2,0,0,0,0,0,0,0], pixel_count := 8 }

def brainMeta : MetaState Unit :=
  { toFixed := brainFixed, header := (),
    slice_info := [{ slice_location := 65, echoNumber := none },
                   { slice_location := 66, echoNumber := none }] }

def brainVol : UNCFile Unit :=
  { toMetaState := brainMeta,
    pixels := { dtype := .int16be, shape := [2, 2, 2], data := [1,2,3,4,5,6,7,8] } }

/-- Address-table chunk of the adversarial file family: pixels at 4280 (end
of file), info at 4277. -/
def cAddr : List Nat :=
  [0,0,0,36, 0,0,0,48, 0,0,16,52, 0,0,16,133, 0,0,16,137, 0,0,16,141,
   0,0,16,184, 0,0,16,181, 0,0,0,0]

def zMMF : List Nat := [0,0,0,0]

def zMMV : List Nat := List.replicate 8 0

def zHF : List Nat := [0,0,0,0]

def cTitle : List Nat := List.replicate 81 65

def zPF : List Nat := [0,0,0,0]

def cDC : List Nat := [0,0,0,1]

def cDV : List Nat := [255,255,255,255] ++ List.replicate 36 0

def cInfo : List Nat := [72,68,82]

/-- An adversarial 4280-byte file that decodes successfully: 81 title bytes
with no null, dim_count 1, dim_vector[0] = -1, one info record, no pixel
bytes. -/
def cexFile : List Nat := layout cAddr zMMF zMMV zHF bHB cTitle zPF cDC cDV cInfo []

def nDC : List Nat := [255,255,255,253]

def nDV : List Nat := List.replicate 40 0

/-- An adversarial file with dim_count -3 and an all-zero dim_vector: its
pixel_count is 1 while no samples are available, yet decode succeeds. -/
def negDimcFile : List Nat := layout cAddr zMMF zMMV zHF bHB cTitle zPF nDC nDV cInfo []

def cexFixed : Fixed :=
  { addresses := [36, 48, 4148, 4229, 4233, 4237, 4280, 4277, 0],
    title := List.replicate 81 (Char.ofNat 65),
    valid_maxmin := false, min := 0, max := 0,
    valid_histogram := false, histogram := List.replicate 1024 0,
    pixel_format := 0, dimc := 1, dimv := [-1,0,0,0,0,0,0,0,0,0], pixel_count := -1 }

def cexMeta : MetaState Unit := { toFixed := cexFixed, header := (), slice_info := [] }

def cexVol : UNCFile Unit :=
  { toMetaState := cexMeta,
    pixels := { dtype := .int16be, shape := [0], data := [] } }

def negDimcFixed : Fixed :=
  { addresses := [36, 48, 4148, 4229, 4233, 4237, 4280, 4277, 0],
    title := List.replicate 81 (Char.ofNat 65),
    valid_maxmin := false, min := 0, max := 0,
    valid_histogram := false, histogram := List.replicate 1024 0,
    pixel_format := 0, dimc := -3, dimv := List.replicate 10 0, pixel_count := 1 }

def negDimcMeta : MetaState Unit := { toFixed := negDimcFixed, header := (), slice_info := [] }

def negDimcVol : UNCFile Unit :=
  { toMetaState := negDimcMeta,
    pixels := { dtype := .int16be, shape := [0,0,0,0,0,0,0], data := [] } }

/-- Number of complete big-endian int16 samples the byte source holds from a
given address to end of file. -/
def samplesAvailable (file : List Nat) (aP : Int) : Nat := (file.length - aP.toNat) / 2

/-- A Fixed record for the handmade split-operation inputs; its contents play
no role in the split operations. -/
def junkFixed : Fixed :=
  { addresses := [], title := [], valid_maxmin := false, min := 0, max := 0,
    valid_histogram := false, histogram := [], pixel_format := 0, dimc := 3,
    dimv := [2,1,1,0,0,0,0,0,0,0], pixel_count := 2 }

/-- A handmade two-slice rank-3 volume with echoes 1 and 2, one pixel per
slice. -/
def tinyU : UNCFile Unit :=
  { toMetaState := { toFixed := junkFixed,
                     header := (),
                     slice_info := [{ slice_location := 0, echoNumber := some 1 },
                                    { slice_location := 1, echoNumber := some 2 }] },
    pixels := { dtype := .int16be, shape := [2, 1, 1], data := [10, 20] } }

/-- List.all holds on a replicate of an element satisfying the predicate. -/
theorem all_replicate_of_true {α : Type} (p : α → Bool) (a : α) (n : Nat)
    (h : p a = true) : (List.replicate n a).all p = true := by
  induction n with
  | zero => rfl
  | succ k ih => rw [List.replicate_succ, List.all_cons, h, ih]; rfl

/-- Parsing 4k zero bytes as big-endian int32 yields k zero values. -/
theorem int32List_replicate_zero (k : Nat) :
    int32List (List.replicate (4 * k) 0) = List.replicate k 0 := by
  induction k with
  | zero => rfl
  | succ n ih =>
      rw [show 4 * (n + 1) = 4 + 4 * n by ring, List.replicate_add]
      rw [show (List.replicate 4 0 : List Nat) = [0, 0, 0, 0] from rfl]
      show int32OfBytes [0, 0, 0, 0] :: int32List (List.replicate (4 * n) 0)
        = List.replicate (n + 1) 0
      rw [ih, List.replicate_succ]
      rfl

/-- Evaluation rule for `readAt` on a successful in-bounds read. -/
theorem readAt_ok (file : List Nat) (off : Int) (n : Nat) (tail rest : List Nat)
    (h0 : 0 ≤ off) (hdrop : file.drop off.toNat = tail ++ rest)
    (htail : tail.length = n) (hlen : off.toNat + n ≤ file.length) :
    readAt file off n = .ok tail := by
  unfold readAt
  rw [if_neg (by omega), if_pos hlen, hdrop, List.take_left' htail]

theorem layout_length (c0 c1 c2 c3 c4 c5 c6 c7 c8 cI cP : List Nat)
    (h0 : c0.length = 36) (h1 : c1.length = 4) (h2 : c2.length = 8)
    (h3 : c3.length = 4) (h4 : c4.length = 4096) (h5 : c5.length = 81)
    (h6 : c6.length = 4) (h7 : c7.length = 4) (h8 : c8.length = 40) :
    (layout c0 c1 c2 c3 c4 c5 c6 c7 c8 cI cP).length = 4277 + (cI.length + cP.length) := by
  simp [layout, h0, h1, h2, h3, h4, h5, h6, h7, h8]; omega

theorem layout_drop36 (c0 c1 c2 c3 c4 c5 c6 c7 c8 cI cP : List Nat)
    (h0 : c0.length = 36) :
    (layout c0 c1 c2 c3 c4 c5 c6 c7 c8 cI cP).drop 36
      = c1 ++ (c2 ++ (c3 ++ (c4 ++ (c5 ++ (c6 ++ (c7 ++ (c8 ++ (cI ++ cP)))))))) := by
  unfold layout; exact List.drop_left' h0

theorem layout_drop40 (c0 c1 c2 c3 c4 c5 c6 c7 c8 cI cP : List Nat)
    (h0 : c0.length = 36) (h1 : c1.length = 4) :
    (layout c0 c1 c2 c3 c4 c5 c6 c7 c8 cI cP).drop 40
      = c2 ++ (c3 ++ (c4 ++ (c5 ++ (c6 ++ (c7 ++ (c8 ++ (cI ++ cP))))))) := by
  rw [show (40 : Nat) = 36 + 4 from rfl, ← List.drop_drop,
    layout_drop36 c0 c1 c2 c3 c4 c5 c6 c7 c8 cI cP h0, List.drop_left' h1]

theorem layout_drop48 (c0 c1 c2 c3 c4 c5 c6 c7 c8 cI cP : List Nat)
    (h0 : c0.length = 36) (h1 : c1.length = 4) (h2 : c2.length = 8) :
    (layout c0 c1 c2 c3 c4 c5 c6 c7 c8 cI cP).drop 48
      = c3 ++ (c4 ++ (c5 ++ (c6 ++ (c7 ++ (c8 ++ (cI ++ cP)))))) := by
  rw [show (48 : Nat) = 40 + 8 from rfl, ← List.drop_drop,
    layout_drop40 c0 c1 c2 c3 c4 c5 c6 c7 c8 cI cP h0 h1, List.drop_left' h2]

theorem layout_drop52 (c0 c1 c2 c3 c4 c5 c6 c7 c8 cI cP : List Nat)
    (h0 : c0.length = 36) (h1 : c1.length = 4) (h2 : c2.length = 8)
    (h3 : c3.length = 4) :
    (layout c0 c1 c2 c3 c4 c5 c6 c7 c8 cI cP).drop 52
      = c4 ++ (c5 ++ (c6 ++ (c7 ++ (c8 ++ (cI ++ cP))))) := by
  rw [show (52 : Nat) = 48 + 4 from rfl, ← List.drop_drop,
    layout_drop48 c0 c1 c2 c3 c4 c5 c6 c7 c8 cI cP h0 h1 h2, List.drop_left' h3]

theorem layout_drop4148 (c0 c1 c2 c3 c4 c5 c6 c7 c8 cI cP : List Nat)
    (h0 : c0.length = 36) (h1 : c1.length = 4) (h2 : c2.length = 8)
    (h3 : c3.length = 4) (h4 : c4.length = 4096) :
    (layout c0 c1 c2 c3 c4 c5 c6 c7 c8 cI cP).drop 4148
      = c5 ++ (c6 ++ (c7 ++ (c8 ++ (cI ++ cP)))) := by
  rw [show (4148 : Nat) = 52 + 4096 from rfl, ← List.drop_drop,
    layout_drop52 c0 c1 c2 c3 c4 c5 c6 c7 c8 cI cP h0 h1 h2 h3, List.drop_left' h4]

theorem layout_drop4229 (c0 c1 c2 c3 c4 c5 c6 c7 c8 cI cP : List Nat)
    (h0 : c0.length = 36) (h1 : c1.length = 4) (h2 : c2.length = 8)
    (h3 : c3.length = 4) (h4 : c4.length = 4096) (h5 : c5.length = 81) :
    (layout c0 c1 c2 c3 c4 c5 c6 c7 c8 cI cP).drop 4229
      = c6 ++ (c7 ++ (c8 ++ (cI ++ cP))) := by
  rw [show (4229 : Nat) = 4148 + 81 from rfl, ← List.drop_drop,
    layout_drop4148 c0 c1 c2 c3 c4 c5 c6 c7 c8 cI cP h0 h1 h2 h3 h4, List.drop_left' h5]

theorem layout_drop4233 (c0 c1 c2 c3 c4 c5 c6 c7 c8 cI cP : List Nat)
    (h0 : c0.length = 36) (h1 : c1.length = 4) (h2 : c2.length = 8)
    (h3 : c3.length = 4) (h4 : c4.length = 4096) (h5 : c5.length = 81)
    (h6 : c6.length = 4) :
    (layout c0 c1 c2 c3 c4 c5 c6 c7 c8 cI cP).drop 4233
      = c7 ++ (c8 ++ (cI ++ cP)) := by
  rw [show (4233 : Nat) = 4229 + 4 from rfl, ← List.drop_drop,
    layout_drop4229 c0 c1 c2 c3 c4 c5 c6 c7 c8 cI cP h0 h1 h2 h3 h4 h5, List.drop_left' h6]

theorem layout_drop4237 (c0 c1 c2 c3 c4 c5 c6 c7 c8 cI cP : List Nat)
    (h0 : c0.length = 36) (h1 : c1.length = 4) (h2 : c2.length = 8)
    (h3 : c3.length = 4) (h4 : c4.length = 4096) (h5 : c5.length = 81)
    (h6 : c6.length = 4) (h7 : c7.length = 4) :
    (layout c0 c1 c2 c3 c4 c5 c6 c7 c8 cI cP).drop 4237
      = c8 ++ (cI ++ cP) := by
  rw [show (4237 : Nat) = 4233 + 4 from rfl, ← List.drop_drop,
    layout_drop4233 c0 c1 c2 c3 c4 c5 c6 c7 c8 cI cP h0 h1 h2 h3 h4 h5 h6,
    List.drop_left' h7]

theorem layout_drop4277 (c0 c1 c2 c3 c4 c5 c6 c7 c8 cI cP : List Nat)
    (h0 : c0.length = 36) (h1 : c1.length = 4) (h2 : c2.length = 8)
    (h3 : c3.length = 4) (h4 : c4.length = 4096) (h5 : c5.length = 81)
    (h6 : c6.length = 4) (h7 : c7.length = 4) (h8 : c8.length = 40) :
    (layout c0 c1 c2 c3 c4 c5 c6 c7 c8 cI cP).drop 4277 = cI ++ cP := by
  rw [show (4277 : Nat) = 4237 + 40 from rfl, ← List.drop_drop,
    layout_drop4237 c0 c1 c2 c3 c4 c5 c6 c7 c8 cI cP h0 h1 h2 h3 h4 h5 h6 h7,
    List.drop_left' h8]

theorem layout_dropPix (c0 c1 c2 c3 c4 c5 c6 c7 c8 cI cP : List Nat)
    (h0 : c0.length = 36) (h1 : c1.length = 4) (h2 : c2.length = 8)
    (h3 : c3.length = 4) (h4 : c4.length = 4096) (h5 : c5.length = 81)
    (h6 : c6.length = 4) (h7 : c7.length = 4) (h8 : c8.length = 40)
    (k : Nat) (hk : cI.length = k) :
    (layout c0 c1 c2 c3 c4 c5 c6 c7 c8 cI cP).drop (4277 + k) = cP := by
  rw [← List.drop_drop,
    layout_drop4277 c0 c1 c2 c3 c4 c5 c6 c7 c8 cI cP h0 h1 h2 h3 h4 h5 h6 h7 h8,
    List.drop_left' hk]

theorem except_bind_ok {ε α β : Type} (a : α) (f : α → Except ε β) :
    (Except.ok a : Except ε α) >>= f = f a := rfl

theorem readAt_okN (file : List Nat) (offn n : Nat) (tail rest : List Nat)
    (hdrop : file.drop offn = tail ++ rest) (htail : tail.length = n)
    (hlen : offn + n ≤ file.length) :
    readAt file (offn : Int) n = .ok tail := by
  apply readAt_ok file (offn : Int) n tail rest (by omega)
  · rw [show ((offn : Nat) : Int).toNat = offn by omega]
    exact hdrop
  · exact htail
  · rw [show ((offn : Nat) : Int).toNat = offn by omega]
    exact hlen

theorem decodeFixed_layout (c0 c1 c2 c3 c4 c5 c6 c7 c8 cI cP : List Nat) (aP av : Int)
    (h0 : c0.length = 36) (h1 : c1.length = 4) (h2 : c2.length = 8)
    (h3 : c3.length = 4) (h4 : c4.length = 4096) (h5 : c5.length = 81)
    (h6 : c6.length = 4) (h7 : c7.length = 4) (h8 : c8.length = 40)
    (haddr : int32List c0 = [36, 48, 4148, 4229, 4233, 4237, aP, 4277, av])
    (hascii : asciiOk c5 = true)
    (hdc : int32OfBytes c7 ≤ 10) :
    decodeFixed (layout c0 c1 c2 c3 c4 c5 c6 c7 c8 cI cP) = .ok
      { addresses := [36, 48, 4148, 4229, 4233, 4237, aP, 4277, av],
        title := (asChars c5).takeWhile (fun c => c != nullChar),
        valid_maxmin := int32OfBytes c1 == 1,
        min := (int32List c2).getD 0 0,
        max := (int32List c2).getD 1 0,
        valid_histogram := int32OfBytes c3 == 1,
        histogram := int32List c4,
        pixel_format := int32OfBytes c6,
        dimc := int32OfBytes c7,
        dimv := int32List c8,
        pixel_count := ((int32List c8).take (int32OfBytes c7).toNat).prod } := by
  have hlen := layout_length c0 c1 c2 c3 c4 c5 c6 c7 c8 cI cP h0 h1 h2 h3 h4 h5 h6 h7 h8
  have r0 : readAt (layout c0 c1 c2 c3 c4 c5 c6 c7 c8 cI cP) ((0 : Nat) : Int) 36 = .ok c0 :=
    readAt_okN _ 0 36 c0 (c1 ++ (c2 ++ (c3 ++ (c4 ++ (c5 ++ (c6 ++ (c7 ++ (c8 ++ (cI ++ cP)))))))))
      (by simp [layout]) h0 (by rw [hlen]; omega)
  have r1 : readAt (layout c0 c1 c2 c3 c4 c5 c6 c7 c8 cI cP) ((36 : Nat) : Int) 4 = .ok c1 :=
    readAt_okN _ 36 4 c1 (c2 ++ (c3 ++ (c4 ++ (c5 ++ (c6 ++ (c7 ++ (c8 ++ (cI ++ cP))))))))
      (layout_drop36 c0 c1 c2 c3 c4 c5 c6 c7 c8 cI cP h0) h1 (by rw [hlen]; omega)
  have r2 : readAt (layout c0 c1 c2 c3 c4 c5 c6 c7 c8 cI cP) ((40 : Nat) : Int) 8 = .ok c2 :=
    readAt_okN _ 40 8 c2 (c3 ++ (c4 ++ (c5 ++ (c6 ++ (c7 ++ (c8 ++ (cI ++ cP)))))))
      (layout_drop40 c0 c1 c2 c3 c4 c5 c6 c7 c8 cI cP h0 h1) h2 (by rw [hlen]; omega)
  have r3 : readAt (layout c0 c1 c2 c3 c4 c5 c6 c7 c8 cI cP) ((48 : Nat) : Int) 4 = .ok c3 :=
    readAt_okN _ 48 4 c3 (c4 ++ (c5 ++ (c6 ++ (c7 ++ (c8 ++ (cI ++ cP))))))
      (layout_drop48 c0 c1 c2 c3 c4 c5 c6 c7 c8 cI cP h0 h1 h2) h3 (by rw [hlen]; omega)
  have r4 : readAt (layout c0 c1 c2 c3 c4 c5 c6 c7 c8 cI cP) ((52 : Nat) : Int) 4096 = .ok c4 :=
    readAt_okN _ 52 4096 c4 (c5 ++ (c6 ++ (c7 ++ (c8 ++ (cI ++ cP)))))
      (layout_drop52 c0 c1 c2 c3 c4 c5 c6 c7 c8 cI cP h0 h1 h2 h3) h4 (by rw [hlen]; omega)
  have r5 : readAt (layout c0 c1 c2 c3 c4 c5 c6 c7 c8 cI cP) ((4148 : Nat) : Int) 81 = .ok c5 :=
    readAt_okN _ 4148 81 c5 (c6 ++ (c7 ++ (c8 ++ (cI ++ cP))))
      (layout_drop4148 c0 c1 c2 c3 c4 c5 c6 c7 c8 cI cP h0 h1 h2 h3 h4) h5 (by rw [hlen]; omega)
  have r6 : readAt (layout c0 c1 c2 c3 c4 c5 c6 c7 c8 cI cP) ((4229 : Nat) : Int) 4 = .ok c6 :=
    readAt_okN _ 4229 4 c6 (c7 ++ (c8 ++ (cI ++ cP)))
      (layout_drop4229 c0 c1 c2 c3 c4 c5 c6 c7 c8 cI cP h0 h1 h2 h3 h4 h5) h6 (by rw [hlen]; omega)
  have r7 : readAt (layout c0 c1 c2 c3 c4 c5 c6 c7 c8 cI cP) ((4233 : Nat) : Int) 4 = .ok c7 :=
    readAt_okN _ 4233 4 c7 (c8 ++ (cI ++ cP))
      (layout_drop4233 c0 c1 c2 c3 c4 c5 c6 c7 c8 cI cP h0 h1 h2 h3 h4 h5 h6) h7 (by rw [hlen]; omega)
  have r8 : readAt (layout c0 c1 c2 c3 c4 c5 c6 c7 c8 cI cP) ((4237 : Nat) : Int) 40 = .ok c8 :=
    readAt_okN _ 4237 40 c8 (cI ++ cP)
      (layout_drop4237 c0 c1 c2 c3 c4 c5 c6 c7 c8 cI cP h0 h1 h2 h3 h4 h5 h6 h7) h8 (by rw [hlen]; omega)
  have sAddr : readAddresses (layout c0 c1 c2 c3 c4 c5 c6 c7 c8 cI cP) = .ok (int32List c0) := by
    unfold readAddresses
    rw [show (0 : Int) = ((0 : Nat) : Int) from rfl, r0]
    rfl
  have sTitle : readTitleSec (layout c0 c1 c2 c3 c4 c5 c6 c7 c8 cI cP)
      [36, 48, 4148, 4229, 4233, 4237, aP, 4277, av]
      = .ok ((asChars c5).takeWhile (fun c => c != nullChar)) := by
    unfold readTitleSec
    rw [show List.getD ([36, 48, 4148, 4229, 4233, 4237, aP, 4277, av] : List Int) 2 0
      = ((4148 : Nat) : Int) from rfl, r5, except_bind_ok, hascii]
    rfl
  have sMaxMin : readMaxMin (layout c0 c1 c2 c3 c4 c5 c6 c7 c8 cI cP)
      [36, 48, 4148, 4229, 4233, 4237, aP, 4277, av]
      = .ok (int32OfBytes c1 == 1, (int32List c2).getD 0 0, (int32List c2).getD 1 0) := by
    unfold readMaxMin
    rw [show List.getD ([36, 48, 4148, 4229, 4233, 4237, aP, 4277, av] : List Int) 0 0
      = ((36 : Nat) : Int) from rfl]
    rw [show (((36 : Nat) : Int) + 4) = ((40 : Nat) : Int) from rfl]
    rw [r1, except_bind_ok, r2, except_bind_ok]
    rfl
  have sHisto : readHistogram (layout c0 c1 c2 c3 c4 c5 c6 c7 c8 cI cP)
      [36, 48, 4148, 4229, 4233, 4237, aP, 4277, av]
      = .ok (int32OfBytes c3 == 1, int32List c4) := by
    unfold readHistogram
    rw [show List.getD ([36, 48, 4148, 4229, 4233, 4237, aP, 4277, av] : List Int) 1 0
      = ((48 : Nat) : Int) from rfl]
    rw [show (((48 : Nat) : Int) + 4) = ((52 : Nat) : Int) from rfl]
    rw [r3, except_bind_ok, r4, except_bind_ok]
    rfl
  have sPF : readPixelFormat (layout c0 c1 c2 c3 c4 c5 c6 c7 c8 cI cP)
      [36, 48, 4148, 4229, 4233, 4237, aP, 4277, av] = .ok (int32OfBytes c6) := by
    unfold readPixelFormat
    rw [show List.getD ([36, 48, 4148, 4229, 4233, 4237, aP, 4277, av] : List Int) 3 0
      = ((4229 : Nat) : Int) from rfl]
    rw [r6, except_bind_ok]
    rfl
  have sDC : readDimc (layout c0 c1 c2 c3 c4 c5 c6 c7 c8 cI cP)
      [36, 48, 4148, 4229, 4233, 4237, aP, 4277, av] = .ok (int32OfBytes c7) := by
    unfold readDimc
    rw [show List.getD ([36, 48, 4148, 4229, 4233, 4237, aP, 4277, av] : List Int) 4 0
      = ((4233 : Nat) : Int) from rfl]
    rw [r7, except_bind_ok]
    rfl
  have sDV : readDimv (layout c0 c1 c2 c3 c4 c5 c6 c7 c8 cI cP)
      [36, 48, 4148, 4229, 4233, 4237, aP, 4277, av] = .ok (int32List c8) := by
    unfold readDimv
    rw [show List.getD ([36, 48, 4148, 4229, 4233, 4237, aP, 4277, av] : List Int) 5 0
      = ((4237 : Nat) : Int) from rfl]
    rw [r8, except_bind_ok]
    rfl
  have sPC : calcPixelCount (int32OfBytes c7) (int32List c8)
      = .ok (((int32List c8).take (int32OfBytes c7).toNat).prod) := by
    unfold calcPixelCount
    rw [if_pos hdc]
  unfold decodeFixed
  rw [sAddr, except_bind_ok, haddr, sTitle, except_bind_ok, sMaxMin, except_bind_ok,
    sHisto, except_bind_ok, sPF, except_bind_ok, sDC, except_bind_ok, sDV, except_bind_ok,
    sPC, except_bind_ok]
  rfl

theorem bHB_length : bHB.length = 4096 := by
  unfold bHB
  exact List.length_replicate 4096 0

theorem bTitle_length : bTitle.length = 81 := by
  unfold bTitle
  rw [List.length_append, List.length_replicate]
  decide

theorem bDV_length : bDV.length = 40 := by
  unfold bDV
  rw [List.length_append, List.length_replicate]
  decide

theorem bAddr_vals : int32List bAddr = [36, 48, 4148, 4229, 4233, 4237, 4284, 4277, 0] := by
  decide

theorem bTitle_ascii : asciiOk bTitle = true := by
  unfold bTitle asciiOk
  rw [List.all_append, all_replicate_of_true _ 0 76 (by decide)]
  decide

theorem decodeFixed_brain : decodeFixed brainFile = .ok brainFixed := by
  unfold brainFile
  rw [decodeFixed_layout bAddr bMMF bMMV bHF bHB bTitle bPF bDC bDV bInfo bPix 4284 0
    (by decide) (by decide) (by decide) (by decide) bHB_length bTitle_length
    (by decide) (by decide) bDV_length bAddr_vals bTitle_ascii (by decide)]
  rw [show (asChars bTitle).takeWhile (fun c => c != nullChar)
    = (['B','R','A','I','N'] : List Char) from by decide]
  rw [show int32List bHB = List.replicate 1024 0 from by
    unfold bHB
    rw [show (4096 : Nat) = 4 * 1024 from rfl]
    exact int32List_replicate_zero 1024]
  rfl

theorem brainFile_drop4277 : brainFile.drop 4277 = bInfo ++ bPix := by
  unfold brainFile
  exact layout_drop4277 bAddr bMMF bMMV bHF bHB bTitle bPF bDC bDV bInfo bPix
    (by decide) (by decide) (by decide) (by decide) bHB_length bTitle_length
    (by decide) (by decide) bDV_length

theorem brainFile_length : brainFile.length = 4300 := by
  unfold brainFile
  rw [layout_length bAddr bMMF bMMV bHF bHB bTitle bPF bDC bDV bInfo bPix
    (by decide) (by decide) (by decide) (by decide) bHB_length bTitle_length
    (by decide) (by decide) bDV_length]
  decide

theorem readInfo_brain : readInfoStage hpUnit spChar brainFile brainFixed = .ok brainMeta := by
  unfold readInfoStage infoRecords
  rw [show brainFixed.addresses.getD 7 0 = ((4277 : Int)) from rfl]
  rw [show ((4277 : Int)).toNat = 4277 from rfl]
  rw [brainFile_length, brainFile_drop4277]
  rfl

theorem decodeMeta_brain : decodeMeta hpUnit spChar brainFile = .ok brainMeta := by
  unfold decodeMeta
  rw [decodeFixed_brain, except_bind_ok, readInfo_brain]

theorem brainFile_drop4284 : brainFile.drop 4284 = bPix := by
  unfold brainFile
  rw [show (4284 : Nat) = 4277 + 7 from rfl]
  exact layout_dropPix bAddr bMMF bMMV bHF bHB bTitle bPF bDC bDV bInfo bPix
    (by decide) (by decide) (by decide) (by decide) bHB_length bTitle_length
    (by decide) (by decide) bDV_length 7 (by decide)

theorem readPixels_brain : readPixels brainFile brainMeta = .ok brainVol := by
  unfold readPixels fromfileSamples
  rw [show brainMeta.addresses.getD 6 0 = ((4284 : Int)) from rfl]
  rw [show ((4284 : Int)).toNat = 4284 from rfl]
  rw [brainFile_drop4284]
  rfl

theorem decode_brain : decode hpUnit spChar brainFile = .ok brainVol := by
  unfold decode
  rw [decodeMeta_brain, except_bind_ok, readPixels_brain]

theorem decodeFixed_trunc : decodeFixed truncFile = .ok brainFixed := by
  unfold truncFile
  rw [decodeFixed_layout bAddr bMMF bMMV bHF bHB bTitle bPF bDC bDV bInfo [0, 1] 4284 0
    (by decide) (by decide) (by decide) (by decide) bHB_length bTitle_length
    (by decide) (by decide) bDV_length bAddr_vals bTitle_ascii (by decide)]
  rw [show (asChars bTitle).takeWhile (fun c => c != nullChar)
    = (['B','R','A','I','N'] : List Char) from by decide]
  rw [show int32List bHB = List.replicate 1024 0 from by
    unfold bHB
    rw [show (4096 : Nat) = 4 * 1024 from rfl]
    exact int32List_replicate_zero 1024]
  rfl

theorem truncFile_drop4277 : truncFile.drop 4277 = bInfo ++ [0, 1] := by
  unfold truncFile
  exact layout_drop4277 bAddr bMMF bMMV bHF bHB bTitle bPF bDC bDV bInfo [0, 1]
    (by decide) (by decide) (by decide) (by decide) bHB_length bTitle_length
    (by decide) (by decide) bDV_length

theorem truncFile_length : truncFile.length = 4286 := by
  unfold truncFile
  rw [layout_length bAddr bMMF bMMV bHF bHB bTitle bPF bDC bDV bInfo [0, 1]
    (by decide) (by decide) (by decide) (by decide) bHB_length bTitle_length
    (by decide) (by decide) bDV_length]
  decide

theorem readInfo_trunc : readInfoStage hpUnit spChar truncFile brainFixed = .ok brainMeta := by
  unfold readInfoStage infoRecords
  rw [show brainFixed.addresses.getD 7 0 = ((4277 : Int)) from rfl]
  rw [show ((4277 : Int)).toNat = 4277 from rfl]
  rw [truncFile_length, truncFile_drop4277]
  rfl

theorem decodeMeta_trunc : decodeMeta hpUnit spChar truncFile = .ok brainMeta := by
  unfold decodeMeta
  rw [decodeFixed_trunc, except_bind_ok, readInfo_trunc]

theorem truncFile_drop4284 : truncFile.drop 4284 = [0, 1] := by
  unfold truncFile
  rw [show (4284 : Nat) = 4277 + 7 from rfl]
  exact layout_dropPix bAddr bMMF bMMV bHF bHB bTitle bPF bDC bDV bInfo [0, 1]
    (by decide) (by decide) (by decide) (by decide) bHB_length bTitle_length
    (by decide) (by decide) bDV_length 7 (by decide)

theorem decodeFixed_fewRec : decodeFixed fewRecFile = .ok brainFixed := by
  unfold fewRecFile
  rw [decodeFixed_layout bAddr bMMF bMMV bHF bHB bTitle bPF bDC bDV [72,68,82,0,66,0] [] 4284 0
    (by decide) (by decide) (by decide) (by decide) bHB_length bTitle_length
    (by decide) (by decide) bDV_length bAddr_vals bTitle_ascii (by decide)]
  rw [show (asChars bTitle).takeWhile (fun c => c != nullChar)
    = (['B','R','A','I','N'] : List Char) from by decide]
  rw [show int32List bHB = List.replicate 1024 0 from by
    unfold bHB
    rw [show (4096 : Nat) = 4 * 1024 from rfl]
    exact int32List_replicate_zero 1024]
  rfl

theorem fewRecFile_drop4277 : fewRecFile.drop 4277 = [72,68,82,0,66,0] ++ [] := by
  unfold fewRecFile
  exact layout_drop4277 bAddr bMMF bMMV bHF bHB bTitle bPF bDC bDV [72,68,82,0,66,0] []
    (by decide) (by decide) (by decide) (by decide) bHB_length bTitle_length
    (by decide) (by decide) bDV_length

theorem fewRecFile_length : fewRecFile.length = 4283 := by
  unfold fewRecFile
  rw [layout_length bAddr bMMF bMMV bHF bHB bTitle bPF bDC bDV [72,68,82,0,66,0] []
    (by decide) (by decide) (by decide) (by decide) bHB_length bTitle_length
    (by decide) (by decide) bDV_length]
  decide

theorem cAddr_vals : int32List cAddr = [36, 48, 4148, 4229, 4233, 4237, 4280, 4277, 0] := by
  decide

theorem cTitle_length : cTitle.length = 81 := by
  unfold cTitle
  exact List.length_replicate 81 65

theorem cTitle_ascii : asciiOk cTitle = true := by
  unfold cTitle asciiOk
  exact all_replicate_of_true _ 65 81 (by decide)

theorem nDV_length : nDV.length = 40 := by
  unfold nDV
  exact List.length_replicate 40 0

theorem decodeFixed_cex : decodeFixed cexFile = .ok cexFixed := by
  unfold cexFile
  rw [decodeFixed_layout cAddr zMMF zMMV zHF bHB cTitle zPF cDC cDV cInfo [] 4280 0
    (by decide) (by decide) (by simp [zMMV]) (by decide) bHB_length cTitle_length
    (by decide) (by decide) (by simp [cDV]) cAddr_vals cTitle_ascii (by decide)]
  rw [show (asChars cTitle).takeWhile (fun c => c != nullChar)
    = List.replicate 81 (Char.ofNat 65) from by decide]
  rw [show int32List bHB = List.replicate 1024 0 from by
    unfold bHB
    rw [show (4096 : Nat) = 4 * 1024 from rfl]
    exact int32List_replicate_zero 1024]
  rfl

theorem cexFile_drop4277 : cexFile.drop 4277 = cInfo ++ [] := by
  unfold cexFile
  exact layout_drop4277 cAddr zMMF zMMV zHF bHB cTitle zPF cDC cDV cInfo []
    (by decide) (by decide) (by simp [zMMV]) (by decide) bHB_length cTitle_length
    (by decide) (by decide) (by simp [cDV])

theorem cexFile_length : cexFile.length = 4280 := by
  unfold cexFile
  rw [layout_length cAddr zMMF zMMV zHF bHB cTitle zPF cDC cDV cInfo []
    (by decide) (by decide) (by simp [zMMV]) (by decide) bHB_length cTitle_length
    (by decide) (by decide) (by simp [cDV])]
  decide

theorem readInfo_cex : readInfoStage hpUnit spChar cexFile cexFixed = .ok cexMeta := by
  unfold readInfoStage infoRecords
  rw [show cexFixed.addresses.getD 7 0 = ((4277 : Int)) from rfl]
  rw [show ((4277 : Int)).toNat = 4277 from rfl]
  rw [cexFile_length, cexFile_drop4277]
  rfl

theorem decodeMeta_cex : decodeMeta hpUnit spChar cexFile = .ok cexMeta := by
  unfold decodeMeta
  rw [decodeFixed_cex, except_bind_ok, readInfo_cex]

theorem cexFile_drop4280 : cexFile.drop 4280 = [] := by
  unfold cexFile
  rw [show (4280 : Nat) = 4277 + 3 from rfl]
  exact layout_dropPix cAddr zMMF zMMV zHF bHB cTitle zPF cDC cDV cInfo []
    (by decide) (by decide) (by simp [zMMV]) (by decide) bHB_length cTitle_length
    (by decide) (by decide) (by simp [cDV]) 3 (by decide)

theorem readPixels_cex : readPixels cexFile cexMeta = .ok cexVol := by
  unfold readPixels fromfileSamples
  rw [show cexMeta.addresses.getD 6 0 = ((4280 : Int)) from rfl]
  rw [show ((4280 : Int)).toNat = 4280 from rfl]
  rw [cexFile_drop4280]
  rfl

theorem decode_cex : decode hpUnit spChar cexFile = .ok cexVol := by
  unfold decode
  rw [decodeMeta_cex, except_bind_ok, readPixels_cex]

theorem decodeFixed_negDimc : decodeFixed negDimcFile = .ok negDimcFixed := by
  unfold negDimcFile
  rw [decodeFixed_layout cAddr zMMF zMMV zHF bHB cTitle zPF nDC nDV cInfo [] 4280 0
    (by decide) (by decide) (by simp [zMMV]) (by decide) bHB_length cTitle_length
    (by decide) (by decide) nDV_length cAddr_vals cTitle_ascii (by decide)]
  rw [show (asChars cTitle).takeWhile (fun c => c != nullChar)
    = List.replicate 81 (Char.ofNat 65) from by decide]
  rw [show int32List bHB = List.replicate 1024 0 from by
    unfold bHB
    rw [show (4096 : Nat) = 4 * 1024 from rfl]
    exact int32List_replicate_zero 1024]
  rw [show int32List nDV = List.replicate 10 0 from by
    unfold nDV
    rw [show (40 : Nat) = 4 * 10 from rfl]
    exact int32List_replicate_zero 10]
  rfl

theorem negDimcFile_drop4277 : negDimcFile.drop 4277 = cInfo ++ [] := by
  unfold negDimcFile
  exact layout_drop4277 cAddr zMMF zMMV zHF bHB cTitle zPF nDC nDV cInfo []
    (by decide) (by decide) (by simp [zMMV]) (by decide) bHB_length cTitle_length
    (by decide) (by decide) nDV_length

theorem negDimcFile_length : negDimcFile.length = 4280 := by
  unfold negDimcFile
  rw [layout_length cAddr zMMF zMMV zHF bHB cTitle zPF nDC nDV cInfo []
    (by decide) (by decide) (by simp [zMMV]) (by decide) bHB_length cTitle_length
    (by decide) (by decide) nDV_length]
  decide

theorem readInfo_negDimc : readInfoStage hpUnit spChar negDimcFile negDimcFixed
    = .ok negDimcMeta := by
  unfold readInfoStage infoRecords
  rw [show negDimcFixed.addresses.getD 7 0 = ((4277 : Int)) from rfl]
  rw [show ((4277 : Int)).toNat = 4277 from rfl]
  rw [negDimcFile_length, negDimcFile_drop4277]
  rfl

theorem decodeMeta_negDimc : decodeMeta hpUnit spChar negDimcFile = .ok negDimcMeta := by
  unfold decodeMeta
  rw [decodeFixed_negDimc, except_bind_ok, readInfo_negDimc]

theorem negDimcFile_drop4280 : negDimcFile.drop 4280 = [] := by
  unfold negDimcFile
  rw [show (4280 : Nat) = 4277 + 3 from rfl]
  exact layout_dropPix cAddr zMMF zMMV zHF bHB cTitle zPF nDC nDV cInfo []
    (by decide) (by decide) (by simp [zMMV]) (by decide) bHB_length cTitle_length
    (by decide) (by decide) nDV_length 3 (by decide)

theorem readPixels_negDimc : readPixels negDimcFile negDimcMeta = .ok negDimcVol := by
  unfold readPixels fromfileSamples
  rw [show negDimcMeta.addresses.getD 6 0 = ((4280 : Int)) from rfl]
  rw [show ((4280 : Int)).toNat = 4280 from rfl]
  rw [negDimcFile_drop4280]
  rfl

theorem decode_negDimc : decode hpUnit spChar negDimcFile = .ok negDimcVol := by
  unfold decode
  rw [decodeMeta_negDimc, except_bind_ok, readPixels_negDimc]

/-! Inversion lemmas for reasoning about successful decodes. -/

theorem except_bind_err {ε α β : Type} (e : ε) (f : α → Except ε β) :
    (Except.error e : Except ε α) >>= f = .error e := rfl

theorem except_bind_ok_inv {ε α β : Type} {e : Except ε α} {f : α → Except ε β} {b : β}
    (h : (e >>= f) = .ok b) : ∃ a, e = .ok a ∧ f a = .ok b := by
  cases e with
  | ok a => exact ⟨a, rfl, h⟩
  | error err => exact absurd h (by simp [except_bind_err])

theorem readAt_ok_inv {file : List Nat} {off : Int} {n : Nat} {bs : List Nat}
    (h : readAt file off n = .ok bs) :
    0 ≤ off ∧ off.toNat + n ≤ file.length ∧ bs = (file.drop off.toNat).take n := by
  unfold readAt at h
  by_cases h1 : off < 0
  · rw [if_pos h1] at h
    cases h
  · rw [if_neg h1] at h
    by_cases h2 : off.toNat + n ≤ file.length
    · rw [if_pos h2] at h
      refine ⟨by omega, h2, ?_⟩
      injection h with h
      exact h.symm
    · rw [if_neg h2] at h
      cases h

theorem decode_ok_inv {H : Type} {hp : List Char → H} {sp : List Char → SliceRec}
    {file : List Nat} {v : UNCFile H} (h : decode hp sp file = .ok v) :
    ∃ m, decodeMeta hp sp file = .ok m ∧ readPixels file m = .ok v := by
  unfold decode at h
  exact except_bind_ok_inv h

theorem decodeMeta_ok_inv {H : Type} {hp : List Char → H} {sp : List Char → SliceRec}
    {file : List Nat} {m : MetaState H} (h : decodeMeta hp sp file = .ok m) :
    ∃ fx, decodeFixed file = .ok fx ∧ readInfoStage hp sp file fx = .ok m := by
  unfold decodeMeta at h
  exact except_bind_ok_inv h

theorem readPixels_ok_spec {H : Type} {file : List Nat} {m : MetaState H} {v : UNCFile H}
    (h : readPixels file m = .ok v) :
    0 ≤ m.addresses.getD 6 0 ∧
    ∃ sh, reshape (fromfileSamples file (m.addresses.getD 6 0) m.pixel_count)
        (pySlice m.dimv m.dimc) = some sh ∧
      v = { toMetaState := m,
            pixels := { dtype := .int16be, shape := sh,
                        data := fromfileSamples file (m.addresses.getD 6 0) m.pixel_count } } := by
  unfold readPixels at h
  by_cases h1 : m.addresses.getD 6 0 < 0
  · rw [if_pos h1] at h
    cases h
  · rw [if_neg h1] at h
    cases hr : reshape (fromfileSamples file (m.addresses.getD 6 0) m.pixel_count)
        (pySlice m.dimv m.dimc) with
    | none =>
        rw [hr] at h
        cases h
    | some sh =>
        rw [hr] at h
        refine ⟨by omega, sh, rfl, ?_⟩
        injection h with h
        exact h.symm

theorem readInfo_ok_spec {H : Type} {hp : List Char → H} {sp : List Char → SliceRec}
    {file : List Nat} {fx : Fixed} {m : MetaState H}
    (h : readInfoStage hp sp file fx = .ok m) :
    m.toFixed = fx ∧
    (fx.dimv.getD 0 0).toNat + 1 ≤ (infoRecords file (fx.addresses.getD 7 0)).length ∧
    m.slice_info = sortSlices ((((infoRecords file (fx.addresses.getD 7 0)).drop 1).take
      (fx.dimv.getD 0 0).toNat).map sp) := by
  unfold readInfoStage at h
  by_cases h1 : fx.addresses.getD 7 0 < 0
  · rw [if_pos h1] at h
    cases h
  · rw [if_neg h1] at h
    by_cases h1' : (file.length : Int) + 1 < fx.addresses.getD 7 0
    · rw [if_pos h1'] at h
      cases h
    · rw [if_neg h1'] at h
      by_cases h2 : asciiOk (file.drop (fx.addresses.getD 7 0).toNat) = true
      · rw [if_pos h2] at h
        by_cases h3 : (infoRecords file (fx.addresses.getD 7 0)).length
            < (fx.dimv.getD 0 0).toNat + 1
        · rw [if_pos h3] at h
          cases h
        · rw [if_neg h3] at h
          injection h with h
          subst h
          exact ⟨rfl, by omega, rfl⟩
      · rw [if_neg h2] at h
        cases h

/-- Field characterization of a successful fixed-section decode: the address
table comes from the first 36 bytes, the title is the null-truncated 81-byte
field at the Title address (which decoded as ASCII), and pixel_count is the
product of the first dim_count dimension extents. -/
theorem decodeFixed_ok_spec {file : List Nat} {fx : Fixed}
    (h : decodeFixed file = .ok fx) :
    fx.addresses = int32List (file.take 36) ∧ 36 ≤ file.length ∧
    0 ≤ fx.addresses.getD 2 0 ∧
    (fx.addresses.getD 2 0).toNat + 81 ≤ file.length ∧
    asciiOk ((file.drop (fx.addresses.getD 2 0).toNat).take 81) = true ∧
    fx.title = (asChars ((file.drop (fx.addresses.getD 2 0).toNat).take 81)).takeWhile
      (fun c => c != nullChar) ∧
    fx.dimc ≤ 10 ∧
    fx.pixel_count = (fx.dimv.take fx.dimc.toNat).prod := by
  unfold decodeFixed at h
  obtain ⟨addrs, hA, h⟩ := except_bind_ok_inv h
  obtain ⟨title, hT, h⟩ := except_bind_ok_inv h
  obtain ⟨mm, hM, h⟩ := except_bind_ok_inv h
  obtain ⟨hg, hH, h⟩ := except_bind_ok_inv h
  obtain ⟨pf, hP, h⟩ := except_bind_ok_inv h
  obtain ⟨dc, hD, h⟩ := except_bind_ok_inv h
  obtain ⟨dv, hV, h⟩ := except_bind_ok_inv h
  obtain ⟨pc, hC, h⟩ := except_bind_ok_inv h
  injection h with h
  subst h
  unfold readAddresses at hA
  obtain ⟨ab, hab, hA⟩ := except_bind_ok_inv hA
  obtain ⟨hab0, hablen, habv⟩ := readAt_ok_inv hab
  injection hA with hA
  unfold readTitleSec at hT
  obtain ⟨tb, htb, hT⟩ := except_bind_ok_inv hT
  obtain ⟨htb0, htblen, htbv⟩ := readAt_ok_inv htb
  by_cases hasc : asciiOk tb = true
  · rw [if_pos hasc] at hT
    injection hT with hT
    unfold calcPixelCount at hC
    by_cases hdc : dc ≤ 10
    · rw [if_pos hdc] at hC
      injection hC with hC
      subst hA
      subst habv
      subst htbv
      subst hT
      subst hC
      exact ⟨rfl, by omega, htb0, htblen, hasc, rfl, hdc, rfl⟩
    · rw [if_neg hdc] at hC
      cases hC
  · rw [if_neg hasc] at hT
    cases hT

/-! Order, arithmetic, and reshape helper lemmas. -/

theorem sortSlices_sorted (l : List SliceRec) :
    List.Sorted (fun a b : SliceRec => a.slice_location ≤ b.slice_location) (sortSlices l) := by
  unfold sortSlices
  haveI : IsTotal SliceRec (fun a b => a.slice_location ≤ b.slice_location) :=
    ⟨fun a b => le_total _ _⟩
  haveI : IsTrans SliceRec (fun a b => a.slice_location ≤ b.slice_location) :=
    ⟨fun _ _ _ h1 h2 => le_trans h1 h2⟩
  exact List.sorted_insertionSort _ l

theorem sortSlices_length (l : List SliceRec) : (sortSlices l).length = l.length :=
  (List.perm_insertionSort _ l).length_eq

theorem pySlice_nonneg (l : List Int) (j : Int) (h : 0 ≤ j) :
    pySlice l j = l.take j.toNat := by
  unfold pySlice
  rw [if_neg (by omega)]

theorem length_takeWhile_le {α : Type} (p : α → Bool) (l : List α) :
    (l.takeWhile p).length ≤ l.length := by
  induction l with
  | nil => simp
  | cons a t ih =>
      rw [List.takeWhile_cons]
      by_cases h : p a = true
      · rw [if_pos h]
        simpa using ih
      · rw [if_neg h]
        simp

theorem length_takeWhile_lt {α : Type} (p : α → Bool) (l : List α) (a : α)
    (ha : a ∈ l) (hpa : p a = false) : (l.takeWhile p).length < l.length := by
  induction l with
  | nil => cases ha
  | cons b t ih =>
      rw [List.takeWhile_cons]
      by_cases h : p b = true
      · rw [if_pos h]
        rcases List.mem_cons.mp ha with h1 | h1
        · subst h1
          rw [h] at hpa
          cases hpa
        · have := ih h1
          simp only [List.length_cons]
          omega
      · rw [if_neg h]
        simp

theorem prod_toNat_cast (l : List Int) (h : ∀ d ∈ l, 0 ≤ d) :
    ((l.map Int.toNat).prod : Int) = l.prod := by
  induction l with
  | nil => simp
  | cons a t ih =>
      rw [List.map_cons, List.prod_cons, List.prod_cons, Nat.cast_mul]
      rw [Int.toNat_of_nonneg (h a (by simp)), ih (fun d hd => h d (by simp [hd]))]

theorem list_prod_nonneg (l : List Int) (h : ∀ d ∈ l, 0 ≤ d) : 0 ≤ l.prod := by
  induction l with
  | nil => simp
  | cons a t ih =>
      rw [List.prod_cons]
      exact mul_nonneg (h a (by simp)) (ih (fun d hd => h d (by simp [hd])))

theorem prod_nonpos_of_single_negone (l : List Int) (hcount : l.count (-1) = 1)
    (hall : ∀ d ∈ l, 0 ≤ d ∨ d = -1) : l.prod ≤ 0 := by
  induction l with
  | nil => simp at hcount
  | cons a t ih =>
      rw [List.prod_cons]
      rcases hall a (by simp) with h1 | h1
      · have hcnt : t.count (-1) = 1 := by
          rw [List.count_cons] at hcount
          have hb : (a == -1) = false := by
            rw [beq_eq_false_iff_ne]
            omega
          rw [hb] at hcount
          simpa using hcount
        have ht := ih hcnt (fun d hd => hall d (by simp [hd]))
        exact mul_nonpos_iff.mpr (Or.inl ⟨h1, ht⟩)
      · subst h1
        have hcnt : t.count (-1) = 0 := by
          rw [List.count_cons] at hcount
          rw [show ((-1 : Int) == -1) = true from by simp, if_pos rfl] at hcount
          omega
        have hnm : (-1 : Int) ∉ t := List.count_eq_zero.mp hcnt
        have hpos : 0 ≤ t.prod := by
          apply list_prod_nonneg
          intro d hd
          rcases hall d (by simp [hd]) with h2 | h2
          · exact h2
          · subst h2
            exact absurd hd hnm
        omega

theorem reshape_all_nonneg_some {flat shape : List Int} {sh : List Nat}
    (hall : ∀ d ∈ shape, 0 ≤ d) (h : reshape flat shape = some sh) :
    sh = shape.map Int.toNat ∧ (shape.map Int.toNat).prod = flat.length := by
  unfold reshape at h
  have hb : shape.all (fun d => decide (0 ≤ d)) = true := by
    rw [List.all_eq_true]
    intro d hd
    exact decide_eq_true (hall d hd)
  rw [if_pos hb] at h
  by_cases hp : (shape.map Int.toNat).prod = flat.length
  · rw [if_pos hp] at h
    injection h with h
    exact ⟨h.symm, hp⟩
  · rw [if_neg hp] at h
    cases h

theorem reshape_none_of_short (flat : List Int) (shape : List Int)
    (hlen : (flat.length : Int) < shape.prod) : reshape flat shape = none := by
  unfold reshape
  by_cases hA : shape.all (fun d => decide (0 ≤ d)) = true
  · rw [if_pos hA]
    have hall : ∀ d ∈ shape, 0 ≤ d := by
      intro d hd
      exact of_decide_eq_true (List.all_eq_true.mp hA d hd)
    have hne : ¬((shape.map Int.toNat).prod = flat.length) := by
      intro hcontra
      have hc := prod_toNat_cast shape hall
      rw [hcontra] at hc
      omega
    rw [if_neg hne]
  · rw [if_neg hA]
    by_cases hB : shape.count (-1) = 1 ∧ shape.all (fun d => decide (0 ≤ d ∨ d = -1)) = true
    · exfalso
      have hall2 : ∀ d ∈ shape, 0 ≤ d ∨ d = -1 := fun d hd =>
        of_decide_eq_true (List.all_eq_true.mp hB.2 d hd)
      have := prod_nonpos_of_single_negone shape hB.1 hall2
      omega
    · rw [if_neg hB]

theorem int16List_length : ∀ (bs : List Nat), (int16List bs).length = bs.length / 2
  | [] => rfl
  | [_] => by simp [int16List]
  | b0 :: b1 :: rest => by
      simp only [int16List, List.length_cons, int16List_length rest]
      omega

/-- C1 (amended): for every decoded volume, pixel_count is the product of the
first dim_count entries of dim_vector (dim_count 0 gives 1), unconditionally;
and whenever dim_count and those entries are nonnegative, the pixel array's
shape is exactly those entries with the slice axis outermost and the flat
data holds exactly pixel_count elements. -/
theorem C1_pixel_layout {H : Type} (hp : List Char → H) (sp : List Char → SliceRec)
    (file : List Nat) (v : UNCFile H) (h : decode hp sp file = .ok v) :
    v.pixel_count = (v.dimv.take v.dimc.toNat).prod ∧
    ((0 ≤ v.dimc ∧ ∀ d ∈ v.dimv.take v.dimc.toNat, 0 ≤ d) →
      v.pixels.shape = (v.dimv.take v.dimc.toNat).map Int.toNat ∧
      (v.pixels.data.length : Int) = v.pixel_count) := by
  obtain ⟨m, hm, hpix⟩ := decode_ok_inv h
  obtain ⟨fx, hfx, hinfo⟩ := decodeMeta_ok_inv hm
  obtain ⟨hneg, sh, hre, hv⟩ := readPixels_ok_spec hpix
  obtain ⟨htf, hreclen, hslice⟩ := readInfo_ok_spec hinfo
  subst htf
  obtain ⟨_, _, _, _, _, _, hdc10, hpc⟩ := decodeFixed_ok_spec hfx
  subst hv
  refine ⟨hpc, ?_⟩
  rintro ⟨hdc, hnn⟩
  have hdc' : (0 : Int) ≤ m.dimc := hdc
  have hnn' : ∀ d ∈ m.dimv.take m.dimc.toNat, 0 ≤ d := hnn
  have hps : pySlice m.dimv m.dimc = m.dimv.take m.dimc.toNat := pySlice_nonneg _ _ hdc'
  rw [hps] at hre
  obtain ⟨hsh, hprod⟩ := reshape_all_nonneg_some hnn' hre
  refine ⟨hsh, ?_⟩
  show ((fromfileSamples file (m.addresses.getD 6 0) m.pixel_count).length : Int)
    = m.pixel_count
  rw [← hprod, prod_toNat_cast _ hnn', ← hpc]

/-- C1 witness at the concrete well-formed input, where the nonnegativity
side condition of the layout clause also holds. -/
theorem C1_witness :
    (brainVol.pixel_count = (brainVol.dimv.take brainVol.dimc.toNat).prod ∧
      ((0 ≤ brainVol.dimc ∧ ∀ d ∈ brainVol.dimv.take brainVol.dimc.toNat, 0 ≤ d) →
        brainVol.pixels.shape = (brainVol.dimv.take brainVol.dimc.toNat).map Int.toNat ∧
        (brainVol.pixels.data.length : Int) = brainVol.pixel_count)) ∧
    (0 ≤ brainVol.dimc ∧ ∀ d ∈ brainVol.dimv.take brainVol.dimc.toNat, 0 ≤ d) :=
  ⟨C1_pixel_layout hpUnit spChar brainFile brainVol decode_brain, by decide, by decide⟩

/-- C1 counterexample: cexFile decodes successfully with dim_vector[0] = -1;
its pixel_count is -1 while the pixel array holds 0 elements, so the pixels
array does not have pixel_count elements. -/
theorem C1_counterexample :
    (decode hpUnit spChar cexFile).map (fun v => (v.pixel_count, (v.pixels.data.length : Int)))
      = .ok (-1, 0) ∧ ((0 : Int) ≠ -1) := by
  constructor
  · rw [decode_cex]
    rfl
  · decide

/-- C2 (amended): after every successful decode, slice_info is sorted
non-decreasing by slice location — whatever order the records appear in the
file — and has max(dim_vector[0], 0) entries. -/
theorem C2_slice_order {H : Type} (hp : List Char → H) (sp : List Char → SliceRec)
    (file : List Nat) (v : UNCFile H) (h : decode hp sp file = .ok v) :
    List.Sorted (fun a b : SliceRec => a.slice_location ≤ b.slice_location) v.slice_info ∧
    v.slice_info.length = (v.dimv.getD 0 0).toNat := by
  obtain ⟨m, hm, hpix⟩ := decode_ok_inv h
  obtain ⟨fx, hfx, hinfo⟩ := decodeMeta_ok_inv hm
  obtain ⟨hneg, sh, hre, hv⟩ := readPixels_ok_spec hpix
  obtain ⟨htf, hreclen, hslice⟩ := readInfo_ok_spec hinfo
  subst htf
  subst hv
  constructor
  · show List.Sorted _ m.slice_info
    rw [hslice]
    exact sortSlices_sorted _
  · show m.slice_info.length = (m.dimv.getD 0 0).toNat
    rw [hslice, sortSlices_length, List.length_map, List.length_take, List.length_drop]
    omega

/-- C2 witness at the concrete well-formed input (whose two slice records
appear in the file in descending location order). -/
theorem C2_witness :
    List.Sorted (fun a b : SliceRec => a.slice_location ≤ b.slice_location)
      brainVol.slice_info ∧
    brainVol.slice_info.length = (brainVol.dimv.getD 0 0).toNat :=
  C2_slice_order hpUnit spChar brainFile brainVol decode_brain

/-- C2 counterexample: cexFile decodes successfully with dim_vector[0] = -1
and an empty slice_info, so slice_info does not have exactly dim_vector[0]
records. -/
theorem C2_counterexample :
    (decode hpUnit spChar cexFile).map
        (fun v => ((v.slice_info.length : Int), v.dimv.getD 0 0))
      = .ok (0, -1) ∧ ((0 : Int) ≠ -1) := by
  constructor
  · rw [decode_cex]
    rfl
  · decide

/-- C3 (amended): for every decoded volume, title is the prefix of the 81-byte
title field before its first null byte (the whole field when it has none);
hence title never contains a null, has at most 81 characters, and at most 80
whenever the field does contain a null byte. -/
theorem C3_title_truncation {H : Type} (hp : List Char → H) (sp : List Char → SliceRec)
    (file : List Nat) (v : UNCFile H) (h : decode hp sp file = .ok v) :
    v.title = (asChars ((file.drop (v.addresses.getD 2 0).toNat).take 81)).takeWhile
      (fun c => c != nullChar) ∧
    nullChar ∉ v.title ∧
    v.title.length ≤ 81 ∧
    (0 ∈ (file.drop (v.addresses.getD 2 0).toNat).take 81 → v.title.length ≤ 80) := by
  obtain ⟨m, hm, hpix⟩ := decode_ok_inv h
  obtain ⟨fx, hfx, hinfo⟩ := decodeMeta_ok_inv hm
  obtain ⟨hneg, sh, hre, hv⟩ := readPixels_ok_spec hpix
  obtain ⟨htf, hreclen, hslice⟩ := readInfo_ok_spec hinfo
  subst htf
  subst hv
  obtain ⟨haddr, h36, h2nn, h2len, hasc, htitle, hdc10, hpc⟩ := decodeFixed_ok_spec hfx
  have htitle' : m.title = (asChars ((file.drop (m.addresses.getD 2 0).toNat).take 81)).takeWhile
      (fun c => c != nullChar) := htitle
  refine ⟨htitle', ?_, ?_, ?_⟩
  · intro hmem
    rw [htitle'] at hmem
    have := List.mem_takeWhile_imp hmem
    simp at this
  · have h1 := length_takeWhile_le (fun c => c != nullChar)
      (asChars ((file.drop (m.addresses.getD 2 0).toNat).take 81))
    have h2 : (asChars ((file.drop (m.addresses.getD 2 0).toNat).take 81)).length ≤ 81 := by
      unfold asChars
      rw [List.length_map, List.length_take]
      omega
    rw [htitle']
    omega
  · intro h0mem
    have hcm : nullChar ∈ asChars ((file.drop (m.addresses.getD 2 0).toNat).take 81) :=
      List.mem_map.mpr ⟨0, h0mem, rfl⟩
    have hfl : (asChars ((file.drop (m.addresses.getD 2 0).toNat).take 81)).length = 81 := by
      unfold asChars
      rw [List.length_map, List.length_take, List.length_drop]
      omega
    have hlt := length_takeWhile_lt (fun c => c != nullChar)
      (asChars ((file.drop (m.addresses.getD 2 0).toNat).take 81)) nullChar hcm (by simp)
    rw [htitle']
    omega

/-- C3 witness at the concrete well-formed input (title field BRAIN followed
by null padding). -/
theorem C3_witness :
    brainVol.title = (asChars ((brainFile.drop (brainVol.addresses.getD 2 0).toNat).take
      81)).takeWhile (fun c => c != nullChar) ∧
    nullChar ∉ brainVol.title ∧
    brainVol.title.length ≤ 81 ∧
    (0 ∈ (brainFile.drop (brainVol.addresses.getD 2 0).toNat).take 81 →
      brainVol.title.length ≤ 80) :=
  C3_title_truncation hpUnit spChar brainFile brainVol decode_brain

/-- C3 counterexample: cexFile's 81-byte title field holds no null byte, and
the decoded title has 81 characters, more than 80. -/
theorem C3_counterexample :
    (decode hpUnit spChar cexFile).map (fun v => v.title.length) = .ok 81 ∧
    ¬(81 ≤ 80) := by
  constructor
  · rw [decode_cex]
    rfl
  · decide

/-- C4 (amended): if the metadata stages succeed with a nonnegative dim_count
and a nonnegative Pixels address, and the source holds fewer complete int16
samples there than pixel_count, then decoding fails with the truncation
error — all-or-nothing, no partially-populated result. -/
theorem C4_truncated_pixels {H : Type} (hp : List Char → H) (sp : List Char → SliceRec)
    (file : List Nat) (m : MetaState H) (hm : decodeMeta hp sp file = .ok m)
    (hdc : 0 ≤ m.dimc) (hap : 0 ≤ m.addresses.getD 6 0)
    (hshort : ((samplesAvailable file (m.addresses.getD 6 0) : Int)) < m.pixel_count) :
    decode hp sp file = .error .truncatedInputError := by
  obtain ⟨fx, hfx, hinfo⟩ := decodeMeta_ok_inv hm
  obtain ⟨htf, _, _⟩ := readInfo_ok_spec hinfo
  subst htf
  obtain ⟨_, _, _, _, _, _, hdc10, hpc⟩ := decodeFixed_ok_spec hfx
  unfold decode
  rw [hm, except_bind_ok]
  unfold readPixels
  rw [if_neg (by omega)]
  have hps : pySlice m.dimv m.dimc = m.dimv.take m.dimc.toNat := pySlice_nonneg _ _ hdc
  rw [hps]
  have hflat : ((fromfileSamples file (m.addresses.getD 6 0) m.pixel_count).length : Int)
      < (m.dimv.take m.dimc.toNat).prod := by
    have hpc0 : 0 ≤ m.pixel_count := by
      have : (0 : Int) ≤ (samplesAvailable file (m.addresses.getD 6 0) : Int) := by positivity
      omega
    unfold fromfileSamples
    rw [if_neg (by omega)]
    have hl : ((int16List (file.drop (m.addresses.getD 6 0).toNat)).take
        m.pixel_count.toNat).length
        = min m.pixel_count.toNat ((file.length - (m.addresses.getD 6 0).toNat) / 2) := by
      rw [List.length_take, int16List_length, List.length_drop]
    rw [hl, ← hpc]
    unfold samplesAvailable at hshort
    omega
  rw [reshape_none_of_short _ _ hflat]

/-- C4 witness: the concrete truncated file (one sample available, eight
required) fails with the truncation error. -/
theorem C4_witness : decode hpUnit spChar truncFile = .error .truncatedInputError :=
  C4_truncated_pixels hpUnit spChar truncFile brainMeta decodeMeta_trunc (by decide) (by decide)
    (by
      unfold samplesAvailable
      rw [show brainMeta.addresses.getD 6 0 = ((4284 : Int)) from rfl]
      rw [show ((4284 : Int)).toNat = 4284 from rfl]
      rw [truncFile_length]
      decide)

/-- C4 counterexample: negDimcFile (dim_count -3) holds 0 samples at its
Pixels address 4280 while pixel_count is 1, yet decoding succeeds — numpy
reshapes the empty stream to the zero-sized shape dimv[0:-3] — so no
TruncatedInputError is raised. -/
theorem C4_counterexample :
    (decode hpUnit spChar negDimcFile).map
        (fun v => (v.pixel_count, v.pixels.data.length, v.addresses.getD 6 0))
      = .ok (1, 0, 4280) ∧
    ((samplesAvailable negDimcFile 4280 : Int)) < 1 := by
  constructor
  · rw [decode_negDimc]
    rfl
  · unfold samplesAvailable
    rw [negDimcFile_length]
    decide

/-- C5: num_echoes is the cardinality of the set of observed Echo Number
values over slice_info, a record lacking the field contributing the value 0. -/
theorem C5_num_echoes_distinct {H : Type} (v : UNCFile H) :
    v.num_echoes = ((v.slice_info.map (fun s => s.echoNumber.getD 0)).toFinset).card ∧
    ∀ x : Int, x ∈ (v.slice_info.map (fun s => s.echoNumber.getD 0)).toFinset ↔
      ∃ s ∈ v.slice_info, s.echoNumber.getD 0 = x := by
  constructor
  · unfold UNCFile.num_echoes numEchoes
    exact (List.card_toFinset _).symm
  · intro x
    simp [List.mem_toFinset, List.mem_map]

/-- C6: if the fixed stages succeed, the Info address is valid (nonnegative
and at most one byte past end of file, so the info read itself succeeds) and
the info section, which decoded as ASCII, splits into fewer than
1 + dim_vector[0] nonempty records, decoding fails with
InconsistentMetadataError. -/
theorem C6_few_records {H : Type} (hp : List Char → H) (sp : List Char → SliceRec)
    (file : List Nat) (fx : Fixed) (hfx : decodeFixed file = .ok fx)
    (hneg : 0 ≤ fx.addresses.getD 7 0)
    (hfit : fx.addresses.getD 7 0 ≤ (file.length : Int) + 1)
    (hascii : asciiOk (file.drop (fx.addresses.getD 7 0).toNat) = true)
    (hlow : ((infoRecords file (fx.addresses.getD 7 0)).length : Int)
      < 1 + fx.dimv.getD 0 0) :
    decode hp sp file = .error .inconsistentMetadataError := by
  unfold decode decodeMeta
  rw [hfx, except_bind_ok]
  have hinfo : readInfoStage hp sp file fx = .error .inconsistentMetadataError := by
    unfold readInfoStage
    rw [if_neg (by omega), if_neg (by omega), if_pos hascii, if_pos (by omega)]
  rw [hinfo, except_bind_err]

/-- C6 witness: the concrete file with two info records but dim_vector[0] = 2
(three records required) fails with InconsistentMetadataError. -/
theorem C6_witness : decode hpUnit spChar fewRecFile = .error .inconsistentMetadataError :=
  C6_few_records hpUnit spChar fewRecFile brainFixed decodeFixed_fewRec (by decide)
    (by
      rw [show brainFixed.addresses.getD 7 0 = ((4277 : Int)) from rfl, fewRecFile_length]
      decide)
    (by
      rw [show brainFixed.addresses.getD 7 0 = ((4277 : Int)) from rfl]
      rw [show ((4277 : Int)).toNat = 4277 from rfl]
      rw [fewRecFile_drop4277]
      decide)
    (by
      rw [show brainFixed.addresses.getD 7 0 = ((4277 : Int)) from rfl]
      have hr : infoRecords fewRecFile ((4277 : Int)) = [['H','D','R'], ['B']] := by
        unfold infoRecords
        rw [show ((4277 : Int)).toNat = 4277 from rfl]
        rw [fewRecFile_drop4277]
        decide
      rw [hr]
      decide)

/-! Counting and partition helper lemmas for the split operations. -/

theorem sum_map_add (f g : Nat → Nat) (l : List Nat) :
    (l.map (fun n => f n + g n)).sum = (l.map f).sum + (l.map g).sum := by
  induction l with
  | nil => rfl
  | cons a t ih =>
      simp only [List.map_cons, List.sum_cons, ih]
      omega

theorem indicator_sum_zero (E : Nat) (k : Int) (hk : (E : Int) < k ∨ k ≤ 0) :
    ((List.range E).map (fun (n : Nat) =>
      if (some k == some ((n : Int) + 1)) = true then 1 else 0)).sum = 0 := by
  induction E with
  | zero => rfl
  | succ e ih =>
      rw [List.range_succ, List.map_append, List.sum_append]
      have hk' : (e : Int) < k ∨ k ≤ 0 := by
        rcases hk with h | h
        · left
          push_cast at h
          omega
        · right
          exact h
      rw [ih hk']
      have hf : (some k == some ((e : Int) + 1)) = false := by
        rw [beq_eq_false_iff_ne]
        intro hc
        have := Option.some.inj hc
        rcases hk with h | h
        · push_cast at h
          omega
        · omega
      simp only [hf, Bool.false_eq_true, if_false, List.map_cons, List.map_nil,
        List.sum_cons, List.sum_nil]
      omega

theorem indicator_sum_one (E : Nat) (k : Int) (h1 : 1 ≤ k) (h2 : k ≤ (E : Int)) :
    ((List.range E).map (fun (n : Nat) =>
      if (some k == some ((n : Int) + 1)) = true then 1 else 0)).sum = 1 := by
  induction E with
  | zero =>
      exfalso
      push_cast at h2
      omega
  | succ e ih =>
      rw [List.range_succ, List.map_append, List.sum_append]
      by_cases hke : k = (e : Int) + 1
      · have hz := indicator_sum_zero e k (Or.inl (by omega))
        rw [hz]
        simp [hke]
      · have h2' : k ≤ (e : Int) := by
          push_cast at h2
          omega
        rw [ih h2']
        have hf : (some k == some ((e : Int) + 1)) = false := by
          rw [beq_eq_false_iff_ne]
          intro hc
          exact hke (Option.some.inj hc)
        simp only [hf, Bool.false_eq_true, if_false, List.map_cons, List.map_nil,
          List.sum_cons, List.sum_nil]
        omega

/-- Filtering by each echo value 1..E partitions a record list whose echo
values all lie in 1..E: the filtered lengths sum to the full length. -/
theorem sum_filter_length_eq (E : Nat) (l : List SliceRec)
    (hmem : ∀ s ∈ l, ∃ k : Int, s.echoNumber = some k ∧ 1 ≤ k ∧ k ≤ (E : Int)) :
    ((List.range E).map (fun (n : Nat) =>
      (l.filter (fun s => s.echoNumber == some ((n : Int) + 1))).length)).sum = l.length := by
  induction l with
  | nil => simp
  | cons s t ih =>
      obtain ⟨k, hk, hk1, hkE⟩ := hmem s (by simp)
      have ht := ih (fun x hx => hmem x (by simp [hx]))
      have hsplit : ∀ n : Nat,
          ((s :: t).filter (fun r => r.echoNumber == some ((n : Int) + 1))).length
          = (if (s.echoNumber == some ((n : Int) + 1)) = true then 1 else 0)
            + (t.filter (fun r => r.echoNumber == some ((n : Int) + 1))).length := by
        intro n
        rw [List.filter_cons]
        by_cases hc : (s.echoNumber == some ((n : Int) + 1)) = true
        · rw [if_pos hc, if_pos hc, List.length_cons]
          omega
        · rw [if_neg hc, if_neg hc]
          omega
      rw [List.map_congr_left (fun n _ => hsplit n), sum_map_add, hk,
        indicator_sum_one E k hk1 hkE, ht, List.length_cons]
      omega

/-- Splitting a list of length k * seg into k contiguous seg-sized chunks and
flattening them gives back the list. -/
theorem flatten_chunks {α : Type} (l : List α) (k seg : Nat) (h : l.length = k * seg) :
    ((List.range k).map (fun n => (l.drop (n * seg)).take seg)).flatten = l := by
  have aux : ∀ m : Nat, ((List.range m).map (fun n => (l.drop (n * seg)).take seg)).flatten
      = l.take (m * seg) := by
    intro m
    induction m with
    | zero => simp
    | succ e ih =>
        rw [List.range_succ, List.map_append, List.flatten_append, ih]
        simp only [List.map_cons, List.map_nil, List.flatten_cons, List.flatten_nil,
          List.append_nil]
        rw [← List.take_add, Nat.succ_mul]

  rw [aux k, ← h, List.take_length]

theorem splitEchoes_eq {H : Type} (u : UNCFile H)
    (h3 : u.pixels.shape.length = 3) (hE : u.num_echoes ≠ 0)
    (hnone : u.slice_info.any (fun s => s.echoNumber.isNone) = false) :
    splitEchoes u = .ok ((List.range u.num_echoes).map (fun (n : Nat) =>
      { header := u.header, dimc := u.dimc, dimv := u.dimv,
        slice_info := u.slice_info.filter
          (fun s => s.echoNumber == some ((n : Int) + 1)),
        pixels := { dtype := .float64,
                    shape := [u.pixels.shape.getD 0 0 / u.num_echoes,
                              u.pixels.shape.getD 1 0, u.pixels.shape.getD 2 0],
                    data := (u.pixels.data.drop
                        (n * (u.pixels.shape.getD 0 0 / u.num_echoes
                          * u.pixels.shape.getD 1 0 * u.pixels.shape.getD 2 0))).take
                      (u.pixels.shape.getD 0 0 / u.num_echoes
                        * u.pixels.shape.getD 1 0 * u.pixels.shape.getD 2 0) } })) := by
  unfold splitEchoes
  rw [if_neg (by omega), if_neg hE, if_neg (by omega), if_neg (by simp [hnone])]

theorem splitVolumes_eq {H : Type} (u : UNCFile H) (nVols : Nat)
    (h3 : u.pixels.shape.length = 3) (hk : nVols ≠ 0) :
    splitVolumes u nVols = .ok ((List.range nVols).map (fun (n : Nat) =>
      { header := u.header, dimc := u.dimc, dimv := u.dimv,
        slice_info := strided u.slice_info nVols,
        pixels := { dtype := .float64,
                    shape := [u.pixels.shape.getD 0 0 / nVols,
                              u.pixels.shape.getD 1 0, u.pixels.shape.getD 2 0],
                    data := (u.pixels.data.drop
                        (n * (u.pixels.shape.getD 0 0 / nVols
                          * u.pixels.shape.getD 1 0 * u.pixels.shape.getD 2 0))).take
                      (u.pixels.shape.getD 0 0 / nVols
                        * u.pixels.shape.getD 1 0 * u.pixels.shape.getD 2 0) } })) := by
  unfold splitVolumes
  rw [if_neg (by omega), if_neg hk, if_neg (by omega)]

theorem splitEchoes_ok_inv {H : Type} {u : UNCFile H} {rs : List (SplitVolume H)}
    (h : splitEchoes u = .ok rs) :
    rs = (List.range u.num_echoes).map (fun (n : Nat) =>
      { header := u.header, dimc := u.dimc, dimv := u.dimv,
        slice_info := u.slice_info.filter
          (fun s => s.echoNumber == some ((n : Int) + 1)),
        pixels := { dtype := .float64,
                    shape := [u.pixels.shape.getD 0 0 / u.num_echoes,
                              u.pixels.shape.getD 1 0, u.pixels.shape.getD 2 0],
                    data := (u.pixels.data.drop
                        (n * (u.pixels.shape.getD 0 0 / u.num_echoes
                          * u.pixels.shape.getD 1 0 * u.pixels.shape.getD 2 0))).take
                      (u.pixels.shape.getD 0 0 / u.num_echoes
                        * u.pixels.shape.getD 1 0 * u.pixels.shape.getD 2 0) } }) := by
  unfold splitEchoes at h
  by_cases c1 : u.pixels.shape.length = 0
  · rw [if_pos c1] at h
    cases h
  · rw [if_neg c1] at h
    by_cases c2 : u.num_echoes = 0
    · rw [if_pos c2] at h
      cases h
    · rw [if_neg c2] at h
      by_cases c3 : u.pixels.shape.length ≠ 3
      · rw [if_pos c3] at h
        cases h
      · rw [if_neg c3] at h
        by_cases c4 : u.slice_info.any (fun s => s.echoNumber.isNone) = true
        · rw [if_pos c4] at h
          cases h
        · rw [if_neg c4] at h
          injection h with h
          exact h.symm

theorem splitVolumes_ok_inv {H : Type} {u : UNCFile H} {nVols : Nat}
    {rs : List (SplitVolume H)} (h : splitVolumes u nVols = .ok rs) :
    rs = (List.range nVols).map (fun (n : Nat) =>
      { header := u.header, dimc := u.dimc, dimv := u.dimv,
        slice_info := strided u.slice_info nVols,
        pixels := { dtype := .float64,
                    shape := [u.pixels.shape.getD 0 0 / nVols,
                              u.pixels.shape.getD 1 0, u.pixels.shape.getD 2 0],
                    data := (u.pixels.data.drop
                        (n * (u.pixels.shape.getD 0 0 / nVols
                          * u.pixels.shape.getD 1 0 * u.pixels.shape.getD 2 0))).take
                      (u.pixels.shape.getD 0 0 / nVols
                        * u.pixels.shape.getD 1 0 * u.pixels.shape.getD 2 0) } }) := by
  unfold splitVolumes at h
  by_cases c1 : u.pixels.shape.length = 0
  · rw [if_pos c1] at h
    cases h
  · rw [if_neg c1] at h
    by_cases c2 : nVols = 0
    · rw [if_pos c2] at h
      cases h
    · rw [if_neg c2] at h
      by_cases c3 : u.pixels.shape.length ≠ 3
      · rw [if_pos c3] at h
        cases h
      · rw [if_neg c3] at h
        injection h with h
        exact h.symm

/-- C7: on a rank-3 volume whose slice count is divisible by num_echoes and
whose Echo Number values all lie in 1..num_echoes (with num_echoes the count
of distinct values, the values are then exactly that contiguous range),
split_echoes returns num_echoes volumes; the n-th takes the contiguous slice
range starting at n * slices_per_echo and the records with Echo Number n + 1,
and the result slice_info lengths sum to the original length. -/
theorem C7_split_echoes {H : Type} (u : UNCFile H) (s0 s1 s2 : Nat)
    (hsh : u.pixels.shape = [s0, s1, s2]) (hpos : 0 < u.num_echoes)
    (hdvd : u.num_echoes ∣ s0)
    (hmem : ∀ s ∈ u.slice_info, ∃ k : Int,
      s.echoNumber = some k ∧ 1 ≤ k ∧ k ≤ (u.num_echoes : Int)) :
    ∃ rs, splitEchoes u = .ok rs ∧ rs.length = u.num_echoes ∧
      (∀ n (hn : n < rs.length),
        (rs.get ⟨n, hn⟩).pixels.data
          = (u.pixels.data.drop (n * (s0 / u.num_echoes * s1 * s2))).take
            (s0 / u.num_echoes * s1 * s2) ∧
        (rs.get ⟨n, hn⟩).slice_info
          = u.slice_info.filter (fun s => s.echoNumber == some ((n : Int) + 1))) ∧
      (rs.map (fun r => r.slice_info.length)).sum = u.slice_info.length := by
  have hnone : u.slice_info.any (fun s => s.echoNumber.isNone) = false := by
    rw [List.any_eq_false]
    intro s hs
    obtain ⟨k, hk, _, _⟩ := hmem s hs
    rw [hk]
    simp
  have heq := splitEchoes_eq u (by rw [hsh]; rfl) (by omega) hnone
  have g0 : u.pixels.shape.getD 0 0 = s0 := by rw [hsh]; rfl
  have g1 : u.pixels.shape.getD 1 0 = s1 := by rw [hsh]; rfl
  have g2 : u.pixels.shape.getD 2 0 = s2 := by rw [hsh]; rfl
  refine ⟨_, heq, by simp, ?_, ?_⟩
  · intro n hn
    constructor
    · simp only [List.get_eq_getElem, List.getElem_map, List.getElem_range, g0, g1, g2]
    · simp only [List.get_eq_getElem, List.getElem_map, List.getElem_range]
  · simp only [List.map_map, Function.comp_def]
    exact sum_filter_length_eq u.num_echoes u.slice_info hmem

/-- C7 witness at the handmade two-echo volume. -/
theorem C7_witness :
    ∃ rs, splitEchoes tinyU = .ok rs ∧ rs.length = tinyU.num_echoes ∧
      (∀ n (hn : n < rs.length),
        (rs.get ⟨n, hn⟩).pixels.data
          = (tinyU.pixels.data.drop (n * (2 / tinyU.num_echoes * 1 * 1))).take
            (2 / tinyU.num_echoes * 1 * 1) ∧
        (rs.get ⟨n, hn⟩).slice_info
          = tinyU.slice_info.filter (fun s => s.echoNumber == some ((n : Int) + 1))) ∧
      (rs.map (fun r => r.slice_info.length)).sum = tinyU.slice_info.length :=
  C7_split_echoes tinyU 2 1 1 rfl (by decide) (by decide)
    (by
      intro s hs
      rcases List.mem_cons.mp hs with h | h
      · exact ⟨1, by rw [h], by decide, by decide⟩
      · rcases List.mem_cons.mp h with h2 | h2
        · exact ⟨2, by rw [h2], by decide, by decide⟩
        · cases h2)

/-- C8: on a rank-3 volume with slice count divisible by n_vols, the n_vols
results of split_volumes carve the pixel data into contiguous non-overlapping
slice ranges that concatenate back to the original data, while every result
gets the same strided selection slice_info[0::n_vols]. -/
theorem C8_split_volumes {H : Type} (u : UNCFile H) (k s0 s1 s2 : Nat)
    (hsh : u.pixels.shape = [s0, s1, s2]) (hk : 0 < k) (hdvd : k ∣ s0)
    (hdata : u.pixels.data.length = s0 * s1 * s2) :
    ∃ rs, splitVolumes u k = .ok rs ∧ rs.length = k ∧
      (∀ n (hn : n < rs.length),
        (rs.get ⟨n, hn⟩).pixels.data
          = (u.pixels.data.drop (n * (s0 / k * s1 * s2))).take (s0 / k * s1 * s2) ∧
        (rs.get ⟨n, hn⟩).slice_info = strided u.slice_info k) ∧
      (rs.map (fun r => r.pixels.data)).flatten = u.pixels.data := by
  have heq := splitVolumes_eq u k (by rw [hsh]; rfl) (by omega)
  have g0 : u.pixels.shape.getD 0 0 = s0 := by rw [hsh]; rfl
  have g1 : u.pixels.shape.getD 1 0 = s1 := by rw [hsh]; rfl
  have g2 : u.pixels.shape.getD 2 0 = s2 := by rw [hsh]; rfl
  refine ⟨_, heq, by simp, ?_, ?_⟩
  · intro n hn
    constructor
    · simp only [List.get_eq_getElem, List.getElem_map, List.getElem_range, g0, g1, g2]
    · simp only [List.get_eq_getElem, List.getElem_map, List.getElem_range]
  · simp only [List.map_map, Function.comp_def, g0, g1, g2]
    have harith : u.pixels.data.length = k * (s0 / k * s1 * s2) := by
      rw [hdata, show k * (s0 / k * s1 * s2) = k * (s0 / k) * s1 * s2 by ring,
        Nat.mul_div_cancel' hdvd]
    exact flatten_chunks u.pixels.data k (s0 / k * s1 * s2) harith

/-- C8 witness at the handmade volume split into two single-slice volumes. -/
theorem C8_witness :
    ∃ rs, splitVolumes tinyU 2 = .ok rs ∧ rs.length = 2 ∧
      (∀ n (hn : n < rs.length),
        (rs.get ⟨n, hn⟩).pixels.data
          = (tinyU.pixels.data.drop (n * (2 / 2 * 1 * 1))).take (2 / 2 * 1 * 1) ∧
        (rs.get ⟨n, hn⟩).slice_info = strided tinyU.slice_info 2) ∧
      (rs.map (fun r => r.pixels.data)).flatten = tinyU.pixels.data :=
  C8_split_volumes tinyU 2 2 1 1 rfl (by decide) (by decide) (by decide)

/-- C10: every result of split_echoes and of split_volumes carries a
default-dtype float64 pixel array — not the original big-endian int16 dtype —
whose elements are the corresponding original samples copied unchanged
(exactly representable, since every int16 value is a float64 value). -/
theorem C10_split_float64 {H : Type} (u : UNCFile H)
    (hdt : u.pixels.dtype = DType.int16be) :
    (∀ rs, splitEchoes u = .ok rs → ∀ n (hn : n < rs.length),
      (rs.get ⟨n, hn⟩).pixels.dtype = DType.float64 ∧
      (rs.get ⟨n, hn⟩).pixels.dtype ≠ u.pixels.dtype ∧
      (rs.get ⟨n, hn⟩).pixels.data
        = (u.pixels.data.drop (n * (u.pixels.shape.getD 0 0 / u.num_echoes
            * u.pixels.shape.getD 1 0 * u.pixels.shape.getD 2 0))).take
          (u.pixels.shape.getD 0 0 / u.num_echoes
            * u.pixels.shape.getD 1 0 * u.pixels.shape.getD 2 0)) ∧
    (∀ k rs, splitVolumes u k = .ok rs → ∀ n (hn : n < rs.length),
      (rs.get ⟨n, hn⟩).pixels.dtype = DType.float64 ∧
      (rs.get ⟨n, hn⟩).pixels.dtype ≠ u.pixels.dtype ∧
      (rs.get ⟨n, hn⟩).pixels.data
        = (u.pixels.data.drop (n * (u.pixels.shape.getD 0 0 / k
            * u.pixels.shape.getD 1 0 * u.pixels.shape.getD 2 0))).take
          (u.pixels.shape.getD 0 0 / k
            * u.pixels.shape.getD 1 0 * u.pixels.shape.getD 2 0)) := by
  constructor
  · intro rs h n hn
    have hrs := splitEchoes_ok_inv h
    subst hrs
    refine ⟨?_, ?_, ?_⟩
    · simp only [List.get_eq_getElem, List.getElem_map, List.getElem_range]
    · simp only [List.get_eq_getElem, List.getElem_map, List.getElem_range, hdt]
      decide
    · simp only [List.get_eq_getElem, List.getElem_map, List.getElem_range]
  · intro k rs h n hn
    have hrs := splitVolumes_ok_inv h
    subst hrs
    refine ⟨?_, ?_, ?_⟩
    · simp only [List.get_eq_getElem, List.getElem_map, List.getElem_range]
    · simp only [List.get_eq_getElem, List.getElem_map, List.getElem_range, hdt]
      decide
    · simp only [List.get_eq_getElem, List.getElem_map, List.getElem_range]

/-- C10 witness at the handmade two-echo volume. -/
theorem C10_witness :
    (∀ rs, splitEchoes tinyU = .ok rs → ∀ n (hn : n < rs.length),
      (rs.get ⟨n, hn⟩).pixels.dtype = DType.float64 ∧
      (rs.get ⟨n, hn⟩).pixels.dtype ≠ tinyU.pixels.dtype ∧
      (rs.get ⟨n, hn⟩).pixels.data
        = (tinyU.pixels.data.drop (n * (tinyU.pixels.shape.getD 0 0 / tinyU.num_echoes
            * tinyU.pixels.shape.getD 1 0 * tinyU.pixels.shape.getD 2 0))).take
          (tinyU.pixels.shape.getD 0 0 / tinyU.num_echoes
            * tinyU.pixels.shape.getD 1 0 * tinyU.pixels.shape.getD 2 0)) ∧
    (∀ k rs, splitVolumes tinyU k = .ok rs → ∀ n (hn : n < rs.length),
      (rs.get ⟨n, hn⟩).pixels.dtype = DType.float64 ∧
      (rs.get ⟨n, hn⟩).pixels.dtype ≠ tinyU.pixels.dtype ∧
      (rs.get ⟨n, hn⟩).pixels.data
        = (tinyU.pixels.data.drop (n * (tinyU.pixels.shape.getD 0 0 / k
            * tinyU.pixels.shape.getD 1 0 * tinyU.pixels.shape.getD 2 0))).take
          (tinyU.pixels.shape.getD 0 0 / k
            * tinyU.pixels.shape.getD 1 0 * tinyU.pixels.shape.getD 2 0)) :=
  C10_split_float64 tinyU rfl

end Pyunc
